import Mathlib

/-!
Verification of the pulse scoring engine against its natural-language
specification.

The Go source is shallowly embedded:

* `float64` values are modelled as exact rationals `GoFloat` (an integer
  numerator over a positive natural denominator).  All arithmetic the engine
  performs on metric values and weights (addition, multiplication,
  comparison, conversion to `int`) is exact on the values exercised here, so
  the rational model is faithful; `GoFloat.toRat` interprets a value in `ℚ`
  and bridge lemmas prove each operation exact.
* Go `int` is `Int`; Go integer division and Go `int(float64)` conversion
  truncate toward zero, modelled with `Int.tdiv`.
* Go strings are lists of characters (`Str`); `strings.Split(s, ".")` and
  `strings.Contains` are re-implemented structurally.  `unicode.IsLetter`
  and `unicode.IsDigit` are modelled on the ASCII fragment
  (`Char.isAlpha` / `Char.isDigit`), and Go's byte length coincides with
  character count on that fragment.
* Fallible Go functions returning `(T, error)` become `Except Str T`;
  `time.Now()` is passed in as an explicit `now` parameter.
* Methods of `ScoreCalculator` take the `MetricsProcessor` and the scoring
  method as explicit arguments; `UpdateMetric`, which mutates the processor
  through its pointer receiver, returns the updated processor explicitly.
-/

namespace Pulse

/-- Exact-rational model of a Go `float64`: numerator over positive
denominator.  Fractions are not kept normalised; `toRat` gives the value. -/
structure GoFloat where
  num : Int
  den : Nat
  den_pos : 0 < den

instance : DecidableEq GoFloat := fun a b =>
  decidable_of_iff (a.num = b.num ∧ a.den = b.den) (by cases a; cases b; simp)

/-- The float64 value of an integer. -/
def GoFloat.ofInt (n : Int) : GoFloat := ⟨n, 1, Nat.one_pos⟩

/-- Exact float64 addition. -/
def GoFloat.add (x y : GoFloat) : GoFloat :=
  ⟨x.num * (y.den : Int) + y.num * (x.den : Int), x.den * y.den,
   Nat.mul_pos x.den_pos y.den_pos⟩

/-- Exact float64 multiplication. -/
def GoFloat.mul (x y : GoFloat) : GoFloat :=
  ⟨x.num * y.num, x.den * y.den, Nat.mul_pos x.den_pos y.den_pos⟩

/-- Go `x < y` on float64 (exact, by cross-multiplication). -/
def GoFloat.blt (x y : GoFloat) : Bool :=
  decide (x.num * (y.den : Int) < y.num * (x.den : Int))

/-- Go `x <= y` on float64 (exact, by cross-multiplication). -/
def GoFloat.ble (x y : GoFloat) : Bool :=
  decide (x.num * (y.den : Int) ≤ y.num * (x.den : Int))

/-- Go `int(x)`: conversion of a float64 to int truncates toward zero. -/
def GoFloat.trunc (x : GoFloat) : Int := x.num.tdiv (x.den : Int)

/-- Go `int(x / y)` in one step (used only where the source has checked
`y > 0`, so the sign of the denominator is known there). -/
def GoFloat.truncDiv (x y : GoFloat) : Int :=
  (x.num * (y.den : Int)).tdiv ((x.den : Int) * y.num)

/-- The rational value denoted by a `GoFloat`. -/
def GoFloat.toRat (x : GoFloat) : ℚ := (x.num : ℚ) / (x.den : ℚ)

/-- Go summation `for .. { s += v }` over a list, starting from `0.0`. -/
def goSum (l : List GoFloat) : GoFloat := l.foldl GoFloat.add (GoFloat.ofInt 0)

/-- Truncation toward zero of a rational, as a specification-level notion:
floor for nonnegative arguments, ceiling for negative ones. -/
def ratTruncZ (q : ℚ) : Int := if 0 ≤ q then ⌊q⌋ else ⌈q⌉

theorem GoFloat.den_cast_pos (x : GoFloat) : (0 : ℚ) < (x.den : ℚ) := by
  exact_mod_cast x.den_pos

theorem GoFloat.den_cast_ne (x : GoFloat) : ((x.den : ℚ)) ≠ 0 :=
  ne_of_gt x.den_cast_pos

theorem GoFloat.toRat_ofInt (n : Int) : (GoFloat.ofInt n).toRat = (n : ℚ) := by
  simp [GoFloat.ofInt, GoFloat.toRat]

theorem GoFloat.toRat_add (x y : GoFloat) :
    (x.add y).toRat = x.toRat + y.toRat := by
  unfold GoFloat.add GoFloat.toRat
  have hx := x.den_cast_ne
  have hy := y.den_cast_ne
  push_cast
  field_simp

theorem GoFloat.toRat_mul (x y : GoFloat) :
    (x.mul y).toRat = x.toRat * y.toRat := by
  unfold GoFloat.mul GoFloat.toRat
  have hx := x.den_cast_ne
  have hy := y.den_cast_ne
  push_cast
  field_simp

theorem GoFloat.blt_iff (x y : GoFloat) :
    x.blt y = true ↔ x.toRat < y.toRat := by
  unfold GoFloat.blt GoFloat.toRat
  rw [decide_eq_true_iff, div_lt_div_iff₀ x.den_cast_pos y.den_cast_pos]
  constructor
  · intro h; exact_mod_cast h
  · intro h; exact_mod_cast h

theorem GoFloat.ble_iff (x y : GoFloat) :
    x.ble y = true ↔ x.toRat ≤ y.toRat := by
  unfold GoFloat.ble GoFloat.toRat
  rw [decide_eq_true_iff, div_le_div_iff₀ x.den_cast_pos y.den_cast_pos]
  constructor
  · intro h; exact_mod_cast h
  · intro h; exact_mod_cast h

theorem goSum_toRat_aux (acc : GoFloat) (l : List GoFloat) :
    (l.foldl GoFloat.add acc).toRat = acc.toRat + (l.map GoFloat.toRat).sum := by
  induction l generalizing acc with
  | nil => simp
  | cons x xs ih =>
      simp only [List.foldl_cons, List.map_cons, List.sum_cons, ih,
        GoFloat.toRat_add]
      ring

theorem goSum_toRat (l : List GoFloat) :
    (goSum l).toRat = (l.map GoFloat.toRat).sum := by
  unfold goSum
  rw [goSum_toRat_aux]
  simp [GoFloat.toRat_ofInt]

theorem tdiv_eq_ratTruncZ (a : Int) (d : Nat) (hd : 0 < d) :
    a.tdiv (d : Int) = ratTruncZ ((a : ℚ) / (d : ℚ)) := by
  have hdq : (0 : ℚ) < (d : ℚ) := by exact_mod_cast hd
  have hdz : (0 : Int) ≤ (d : Int) := by exact_mod_cast Nat.zero_le d
  rcases le_or_lt 0 a with ha | ha
  · have hq : (0 : ℚ) ≤ (a : ℚ) / (d : ℚ) :=
      div_nonneg (by exact_mod_cast ha) hdq.le
    rw [ratTruncZ, if_pos hq, Rat.floor_intCast_div_natCast,
      Int.tdiv_eq_ediv ha hdz]
  · have hq : (a : ℚ) / (d : ℚ) < 0 :=
      div_neg_of_neg_of_pos (by exact_mod_cast ha) hdq
    rw [ratTruncZ, if_neg (not_le.mpr hq)]
    have h2 : a.tdiv (d : Int) = -((-a).tdiv (d : Int)) := by
      rw [Int.neg_tdiv, neg_neg]
    rw [h2, Int.tdiv_eq_ediv (by omega) hdz,
      ← Rat.floor_intCast_div_natCast (-a) d]
    have hneg : ((-a : Int) : ℚ) / (d : ℚ) = -((a : ℚ) / (d : ℚ)) := by
      push_cast
      ring
    rw [hneg, Int.floor_neg, neg_neg]

theorem tdiv_eq_ratTruncZ_int (a b : Int) (hb : 0 < b) :
    a.tdiv b = ratTruncZ ((a : ℚ) / (b : ℚ)) := by
  have h1 : b = ((b.toNat : Nat) : Int) := by omega
  have h2 : (0 : Nat) < b.toNat := by omega
  rw [h1, tdiv_eq_ratTruncZ a b.toNat h2]
  congr 2

theorem GoFloat.trunc_eq (x : GoFloat) : x.trunc = ratTruncZ x.toRat :=
  tdiv_eq_ratTruncZ x.num x.den x.den_pos

theorem GoFloat.truncDiv_eq (x y : GoFloat) (hy : 0 < y.num) :
    x.truncDiv y = ratTruncZ (x.toRat / y.toRat) := by
  unfold GoFloat.truncDiv
  have hpos : (0 : Int) < (x.den : Int) * y.num :=
    mul_pos (by exact_mod_cast x.den_pos) hy
  rw [tdiv_eq_ratTruncZ_int _ _ hpos]
  congr 1
  unfold GoFloat.toRat
  have hx := x.den_cast_ne
  have hyd := y.den_cast_ne
  have hyn : ((y.num : ℚ)) ≠ 0 := by exact_mod_cast hy.ne'
  push_cast
  field_simp
  try ring

/-! ## Strings

Go strings are modelled as lists of characters.  `strings.Split(s, ".")`
and `strings.Contains(s, sub)` are re-implemented structurally below. -/

/-- Model of a Go string. -/
abbrev Str := List Char

instance {e a : Type} [DecidableEq e] [DecidableEq a] :
    DecidableEq (Except e a) := fun x y =>
  match x, y with
  | .ok u, .ok v => decidable_of_iff (u = v) (by simp)
  | .error u, .error v => decidable_of_iff (u = v) (by simp)
  | .ok _, .error _ => isFalse (by simp)
  | .error _, .ok _ => isFalse (by simp)

/-- String literal helper. -/
def str (s : String) : Str := s.toList

/-- `strings.Split(s, ".")`: split at every dot, preserving empty segments;
the empty string yields one empty segment, as in Go. -/
def splitDot : Str → List Str
  | [] => [[]]
  | c :: cs =>
      let rest := splitDot cs
      if c = '.' then [] :: rest
      else
        match rest with
        | seg :: segs => (c :: seg) :: segs
        | [] => [[c]]

/-- Whether `pat` is an initial segment of `s`. -/
def strStartsWith : Str → Str → Bool
  | _, [] => true
  | [], _ :: _ => false
  | c :: cs, d :: ds => decide (c = d) && strStartsWith cs ds

/-- `strings.Contains(s, pat)`: whether `pat` occurs inside `s`. -/
def strContainsSub : Str → Str → Bool
  | [], pat => pat.isEmpty
  | c :: cs, pat => strStartsWith (c :: cs) pat || strContainsSub cs pat

theorem splitDot_ne_nil (s : Str) : splitDot s ≠ [] := by
  cases s with
  | nil => simp [splitDot]
  | cons c cs =>
      unfold splitDot
      have h := splitDot_ne_nil cs
      by_cases hc : c = '.'
      · simp [hc]
      · simp only [if_neg hc]
        cases hrest : splitDot cs with
        | nil => exact absurd hrest h
        | cons seg segs => simp

theorem strStartsWith_append (p rest : Str) :
    strStartsWith (p ++ rest) p = true := by
  induction p with
  | nil => cases rest <;> simp [strStartsWith]
  | cons c cs ih => simpa [strStartsWith] using ih

theorem strContainsSub_of_startsWith (s pat : Str)
    (h : strStartsWith s pat = true) : strContainsSub s pat = true := by
  cases s with
  | nil =>
      cases pat with
      | nil => simp [strContainsSub]
      | cons d ds => simp [strStartsWith] at h
  | cons c cs => simp [strContainsSub, h]

/-- A string of the form `pre ++ rest` contains `pre`. -/
theorem strContainsSub_append (pre rest : Str) :
    strContainsSub (pre ++ rest) pre = true :=
  strContainsSub_of_startsWith _ _ (strStartsWith_append pre rest)

/-! ## Data model (types.go)

Field names follow the Go source; the configuration structures `Global` and
`LeversConfig` use lower-case field names to avoid clashing with the type
names of their fields.  Go maps used only for key lookup
(`map[string]float64`, `map[string]Thresholds`) are association lists
queried with `List.lookup`. -/

/-- `ThresholdRange`: an inclusive `[min,max]` range of scores. -/
structure ThresholdRange where
  Min : Int
  Max : Int
deriving DecidableEq

/-- `Thresholds`: green/yellow/red score ranges. -/
structure Thresholds where
  Green : ThresholdRange
  Yellow : ThresholdRange
  Red : ThresholdRange
deriving DecidableEq

/-- `ScoringBand`: an optional `Min`/`Max` bound pair and the band score. -/
structure ScoringBand where
  Min : Option GoFloat
  Max : Option GoFloat
  Score : Int
deriving DecidableEq

/-- `KPI`: a key performance indicator definition. -/
structure KPI where
  ID : Str
  Name : Str
  Description : Str
  Unit : Str
  ScoringBands : List ScoringBand
deriving DecidableEq

/-- `KRI`: a key risk indicator definition. -/
structure KRI where
  ID : Str
  Name : Str
  Description : Str
  Unit : Str
  ScoringBands : List ScoringBand
deriving DecidableEq

/-- `Category`: a group of KPI and KRI definitions. -/
structure Category where
  ID : Str
  Name : Str
  Description : Str
  KPIs : List KPI
  KRIs : List KRI
deriving DecidableEq

/-- `MetricsConfig`: the metric catalog. -/
structure MetricsConfig where
  Categories : List Category
deriving DecidableEq

/-- `Metric`: one recorded observation.  `time.Time` is modelled as `Int`. -/
structure Metric where
  Reference : Str
  Value : GoFloat
  Timestamp : Int
  SourceFile : Str
deriving DecidableEq

/-- `MetricsData`: the list of recorded metrics. -/
structure MetricsData where
  Metrics : List Metric
deriving DecidableEq

/-- `Global`: global threshold configuration. -/
structure Global where
  thresholds : Thresholds
  kpiThresholds : Thresholds
  kriThresholds : Thresholds
deriving DecidableEq

/-- `Weights`: category weights and per-category threshold overrides. -/
structure Weights where
  Categories : List (Str × GoFloat)
  CategoryThresholds : List (Str × Thresholds)
  CategoryKPIThresholds : List (Str × Thresholds)
  CategoryKRIThresholds : List (Str × Thresholds)
deriving DecidableEq

/-- `LeversConfig`: the executive levers configuration. -/
structure LeversConfig where
  global : Global
  weights : Weights
deriving DecidableEq

/-- `MetricsProcessor`: catalog, levers and data, as one snapshot. -/
structure MetricsProcessor where
  metricsConfig : MetricsConfig
  leversConfig : LeversConfig
  metricsData : MetricsData
deriving DecidableEq

/-- `TrafficLightStatus`. -/
inductive TrafficLightStatus where
  | Green
  | Yellow
  | Red
deriving DecidableEq

/-- `MetricScore`: computed score of one metric. -/
structure MetricScore where
  Reference : Str
  Score : Int
  Status : TrafficLightStatus
deriving DecidableEq

/-- `CategoryScore`: computed score of one category. -/
structure CategoryScore where
  ID : Str
  Name : Str
  Score : Int
  KPIScore : Int
  KRIScore : Int
  Status : TrafficLightStatus
  KPIStatus : TrafficLightStatus
  KRIStatus : TrafficLightStatus
  Metrics : List MetricScore
deriving DecidableEq

/-- `OverallScore`: the overall result tree. -/
structure OverallScore where
  Score : Int
  KPIScore : Int
  KRIScore : Int
  Status : TrafficLightStatus
  KPIStatus : TrafficLightStatus
  KRIStatus : TrafficLightStatus
  Categories : List CategoryScore
deriving DecidableEq

/-- The dynamic result of `GetMetricDefinition` (`interface{}` holding a
`KPI` or a `KRI` in the source). -/
inductive MetricDefinition where
  | kpi (k : KPI)
  | kri (k : KRI)
deriving DecidableEq

/-! ## Metric catalog and store (metrics.go) -/

/-- `unicode.IsLetter`/`IsDigit` restricted to ASCII, plus the three
punctuation characters the reference grammar allows. -/
def isRefChar (c : Char) : Bool :=
  c.isAlpha || c.isDigit || c = '.' || c = '_' || c = '-'

/-- `isValidReference`: format check used by `UpdateMetric`. -/
def isValidReference (reference : Str) : Bool :=
  if reference = [] ∨ 100 < reference.length then false
  else if reference.all isRefChar = false then false
  else if (splitDot reference).length ≠ 3 then false
  else if (splitDot reference).any (fun part => part.isEmpty) then false
  else if (splitDot reference).getD 1 [] ≠ str "KPI" ∧
      (splitDot reference).getD 1 [] ≠ str "KRI" then false
  else true

/-- `GetMetricType`: the middle segment of a well-formed reference. -/
def GetMetricType (reference : Str) : Except Str Str :=
  if (splitDot reference).length ≠ 3 then
    .error (str "invalid metric reference format: " ++ reference)
  else if (splitDot reference).getD 1 [] ≠ str "KPI" ∧
      (splitDot reference).getD 1 [] ≠ str "KRI" then
    .error (str "invalid metric type: " ++ (splitDot reference).getD 1 [])
  else
    .ok ((splitDot reference).getD 1 [])

/-- `GetCategoryByID`: first configured category with the given id. -/
def GetCategoryByID (m : MetricsProcessor) (categoryID : Str) :
    Except Str Category :=
  match m.metricsConfig.Categories.find?
      (fun category => decide (category.ID = categoryID)) with
  | some category => .ok category
  | none => .error (str "category not found: " ++ categoryID)

/-- `GetAllCategories`. -/
def GetAllCategories (m : MetricsProcessor) : List Category :=
  m.metricsConfig.Categories

/-- `GetMetricsByCategory`: recorded metrics whose reference's first
dot-separated segment equals the category id. -/
def GetMetricsByCategory (m : MetricsProcessor) (categoryID : Str) :
    List Metric :=
  m.metricsData.Metrics.filter fun metric =>
    match splitDot metric.Reference with
    | p :: _ => decide (p = categoryID)
    | [] => false

/-- `GetMetricDefinition`: resolve a reference to its KPI or KRI
definition.  The source checks only the three-segment shape here; the
category lookup happens before the type segment is inspected. -/
def GetMetricDefinition (m : MetricsProcessor) (reference : Str) :
    Except Str MetricDefinition :=
  match splitDot reference with
  | [categoryID, metricType, metricID] =>
      match GetCategoryByID m categoryID with
      | .error e => .error e
      | .ok category =>
          if metricType = str "KPI" then
            match category.KPIs.find? (fun kpi => decide (kpi.ID = metricID)) with
            | some kpi => .ok (.kpi kpi)
            | none => .error (str "KPI not found: " ++ metricID)
          else if metricType = str "KRI" then
            match category.KRIs.find? (fun kri => decide (kri.ID = metricID)) with
            | some kri => .ok (.kri kri)
            | none => .error (str "KRI not found: " ++ metricID)
          else .error (str "invalid metric type: " ++ metricType)
  | _ => .error (str "invalid metric reference format: " ++ reference)

/-- The update loop of `UpdateMetric`: rewrite the first metric whose
reference matches (value, timestamp, and source file if previously empty),
reporting whether a match was found. -/
def updateMetricList (reference : Str) (value : GoFloat) (now : Int)
    (sourceFile : Str) : List Metric → Bool × List Metric
  | [] => (false, [])
  | metric :: rest =>
      if metric.Reference = reference then
        (true,
         { metric with
             Value := value
             Timestamp := now
             SourceFile :=
               if metric.SourceFile = [] then sourceFile
               else metric.SourceFile } :: rest)
      else
        let found_rest := updateMetricList reference value now sourceFile rest
        (found_rest.1, metric :: found_rest.2)

/-- `UpdateMetric`: validate the reference, then update the first matching
metric in place or append a new one.  The Go method mutates the processor
through its pointer receiver; here the updated processor is returned next
to the `error` result. -/
def UpdateMetric (m : MetricsProcessor) (reference : Str) (value : GoFloat)
    (now : Int) : Except Str Unit × MetricsProcessor :=
  if isValidReference reference = false then
    (.error (str "invalid metric reference format: " ++ reference), m)
  else
    let categoryID := (splitDot reference).headD []
    let sourceFile := categoryID ++ str ".yaml"
    let found_metrics :=
      updateMetricList reference value now sourceFile m.metricsData.Metrics
    if found_metrics.1 then
      (.ok (), { m with metricsData := ⟨found_metrics.2⟩ })
    else
      (.ok (), { m with metricsData :=
        ⟨m.metricsData.Metrics ++ [⟨reference, value, now, sourceFile⟩]⟩ })

/-! ## Scoring engine (score.go) -/

/-- The scoring method is a Go string; `"median"` selects median scoring,
anything else falls through to average, as in the source comparisons. -/
abbrev ScoringMethod := Str

/-- One band-containment test of the scan loop: `inBand` stays true unless
the value is below a declared `Min` or above a declared `Max`. -/
def bandInBand (value : GoFloat) (band : ScoringBand) : Bool :=
  !(band.Min.any fun m => value.blt m) && !(band.Max.any fun mx => mx.blt value)

/-- The scan loop over scoring bands: score of the first band containing
the value, if any. -/
def scanBands (value : GoFloat) : List ScoringBand → Option Int
  | [] => none
  | band :: rest =>
      if bandInBand value band then some band.Score else scanBands value rest

/-- `calculateKPIScore`: 50 with no bands; otherwise first matching band's
score, falling back to the last declared band's score. -/
def calculateKPIScore (value : GoFloat) (kpi : KPI) : Int :=
  if kpi.ScoringBands.length = 0 then 50
  else
    match scanBands value kpi.ScoringBands with
    | some score => score
    | none =>
        match kpi.ScoringBands.getLast? with
        | some band => band.Score
        | none => 0

/-- `calculateKRIScore`: same logic as `calculateKPIScore`. -/
def calculateKRIScore (value : GoFloat) (kri : KRI) : Int :=
  if kri.ScoringBands.length = 0 then 50
  else
    match scanBands value kri.ScoringBands with
    | some score => score
    | none =>
        match kri.ScoringBands.getLast? with
        | some band => band.Score
        | none => 0

/-- `determineStatus`: green range first, then yellow, else red. -/
def determineStatus (score : Int) (thresholds : Thresholds) :
    TrafficLightStatus :=
  if thresholds.Green.Min ≤ score ∧ score ≤ thresholds.Green.Max then .Green
  else if thresholds.Yellow.Min ≤ score ∧ score ≤ thresholds.Yellow.Max then
    .Yellow
  else .Red

/-- `CalculateMetricScore`: resolve the definition, dispatch on the metric
type, band-score the value and classify it against the type-specific
global thresholds. -/
def CalculateMetricScore (s : MetricsProcessor) (metric : Metric) :
    Except Str MetricScore :=
  match GetMetricDefinition s metric.Reference with
  | .error e => .error e
  | .ok metricDef =>
      match GetMetricType metric.Reference with
      | .error e => .error e
      | .ok metricType =>
          if metricType = str "KPI" then
            match metricDef with
            | .kpi kpi =>
                .ok ⟨metric.Reference, calculateKPIScore metric.Value kpi,
                     determineStatus (calculateKPIScore metric.Value kpi)
                       s.leversConfig.global.kpiThresholds⟩
            | .kri _ => .error (str "failed to cast metric definition to KPI")
          else if metricType = str "KRI" then
            match metricDef with
            | .kri kri =>
                .ok ⟨metric.Reference, calculateKRIScore metric.Value kri,
                     determineStatus (calculateKRIScore metric.Value kri)
                       s.leversConfig.global.kriThresholds⟩
            | .kpi _ => .error (str "failed to cast metric definition to KRI")
          else .error (str "unknown metric type: " ++ metricType)

/-- Go summation of an int slice. -/
def sumInts (values : List Int) : Int := values.foldl (· + ·) 0

/-- `calculateAverage`: integer average, truncating toward zero as Go's
integer division does. -/
def calculateAverage (values : List Int) : Int :=
  if values.length = 0 then 0
  else (sumInts values).tdiv (values.length : Int)

/-- `calculateMedian`: sort a copy ascending (`insertionSort` returns a new
list, so the source's defensive copy is implicit); middle element for odd
length, Go-truncated average of the two middle elements for even length. -/
def calculateMedian (values : List Int) : Int :=
  if values.length = 0 then 0
  else if (List.insertionSort (· ≤ ·) values).length % 2 = 0 then
    ((List.insertionSort (· ≤ ·) values).getD
        ((List.insertionSort (· ≤ ·) values).length / 2 - 1) 0 +
      (List.insertionSort (· ≤ ·) values).getD
        ((List.insertionSort (· ≤ ·) values).length / 2) 0).tdiv 2
  else
    (List.insertionSort (· ≤ ·) values).getD
      ((List.insertionSort (· ≤ ·) values).length / 2) 0

/-- The per-metric loop of `CalculateCategoryScore`: metric scores, the
full score list, and the KPI-only and KRI-only score lists, in input
order. -/
def scoreMetricsLoop (s : MetricsProcessor) :
    List Metric → Except Str (List MetricScore × List Int × List Int × List Int)
  | [] => .ok ([], [], [], [])
  | metric :: rest =>
      match CalculateMetricScore s metric with
      | .error e => .error e
      | .ok metricScore =>
          match GetMetricType metric.Reference with
          | .error e => .error e
          | .ok metricType =>
              match scoreMetricsLoop s rest with
              | .error e => .error e
              | .ok (metricScores, scores, kpiScores, kriScores) =>
                  .ok (metricScore :: metricScores,
                       metricScore.Score :: scores,
                       if metricType = str "KPI" then
                         metricScore.Score :: kpiScores
                       else kpiScores,
                       if metricType = str "KRI" then
                         metricScore.Score :: kriScores
                       else kriScores)

/-- The source's `scoringMethod == MedianScoring` dispatch: median when the
method string is `"median"`, average otherwise. -/
def aggregateScores (scoringMethod : ScoringMethod) (values : List Int) : Int :=
  if scoringMethod = str "median" then calculateMedian values
  else calculateAverage values

/-- The source's per-kind sub-score: aggregated when the kind has at least
one score, the zero value of `int` otherwise. -/
def subScoreOf (scoringMethod : ScoringMethod) (values : List Int) : Int :=
  if 0 < values.length then aggregateScores scoringMethod values else 0

/-- Category status: category-specific threshold override when configured,
global thresholds otherwise. -/
def categoryStatusOf (s : MetricsProcessor) (categoryID : Str)
    (categoryScore : Int) : TrafficLightStatus :=
  match List.lookup categoryID s.leversConfig.weights.CategoryThresholds with
  | some categoryThresholds => determineStatus categoryScore categoryThresholds
  | none => determineStatus categoryScore s.leversConfig.global.thresholds

/-- Category KPI status: Yellow when the category has no KPI scores,
otherwise classified against the category override or the global KPI
thresholds. -/
def categoryKPIStatusOf (s : MetricsProcessor) (categoryID : Str)
    (kpiScores : List Int) (kpiScore : Int) : TrafficLightStatus :=
  if 0 < kpiScores.length then
    match List.lookup categoryID s.leversConfig.weights.CategoryKPIThresholds with
    | some t => determineStatus kpiScore t
    | none => determineStatus kpiScore s.leversConfig.global.kpiThresholds
  else .Yellow

/-- Category KRI status, symmetric to `categoryKPIStatusOf`. -/
def categoryKRIStatusOf (s : MetricsProcessor) (categoryID : Str)
    (kriScores : List Int) (kriScore : Int) : TrafficLightStatus :=
  if 0 < kriScores.length then
    match List.lookup categoryID s.leversConfig.weights.CategoryKRIThresholds with
    | some t => determineStatus kriScore t
    | none => determineStatus kriScore s.leversConfig.global.kriThresholds
  else .Yellow

/-- `CalculateCategoryScore`.  The source's local variables
(`categoryScore`, `kpiScore`, `kriScore`, `status`, `kpiStatus`,
`kriStatus`) are the helper functions above. -/
def CalculateCategoryScore (s : MetricsProcessor) (scoringMethod : ScoringMethod)
    (categoryID : Str) : Except Str CategoryScore :=
  match GetCategoryByID s categoryID with
  | .error e => .error e
  | .ok category =>
      if (GetMetricsByCategory s categoryID).length = 0 then
        .error (str "no metrics found for category: " ++ categoryID)
      else
        match scoreMetricsLoop s (GetMetricsByCategory s categoryID) with
        | .error e => .error e
        | .ok (metricScores, scores, kpiScores, kriScores) =>
            .ok ⟨categoryID, category.Name,
                 aggregateScores scoringMethod scores,
                 subScoreOf scoringMethod kpiScores,
                 subScoreOf scoringMethod kriScores,
                 categoryStatusOf s categoryID (aggregateScores scoringMethod scores),
                 categoryKPIStatusOf s categoryID kpiScores
                   (subScoreOf scoringMethod kpiScores),
                 categoryKRIStatusOf s categoryID kriScores
                   (subScoreOf scoringMethod kriScores),
                 metricScores⟩

/-- `calculateWeightedAverage`: `int(Σ vᵢ·wᵢ / Σ wᵢ)`, falling back to the
plain average when the total weight is not positive. -/
def calculateWeightedAverage (values : List Int) (weights : List GoFloat) :
    Int :=
  if values.length = 0 ∨ values.length ≠ weights.length then 0
  else
    let weightedSum :=
      goSum ((values.zip weights).map fun vw =>
        GoFloat.mul (GoFloat.ofInt vw.1) vw.2)
    let totalWeight := goSum weights
    if totalWeight.ble (GoFloat.ofInt 0) then calculateAverage values
    else weightedSum.truncDiv totalWeight

/-- `1.0 / float64(n)`, the equal-share default weight.  At its only call
site `n` is the (guarded, hence positive) number of configured categories;
`max` totalizes the unreachable `n = 0` case. -/
def equalWeight (n : Nat) : GoFloat := ⟨1, max n 1, Nat.le_max_right n 1⟩

/-- The weight resolved for a category id when the total category count is
`n`: the configured weight, defaulting to the equal share `1/n`.  This is
the `weight` computation of `CalculateOverallScore`'s loop. -/
def weightN (s : MetricsProcessor) (n : Nat) (cid : Str) : GoFloat :=
  match List.lookup cid s.leversConfig.weights.Categories with
  | some w => w
  | none => equalWeight n

/-- The per-category loop of `CalculateOverallScore` (`n` is the total
number of configured categories, fixed before the loop): category scores,
their score/weight lists, and the KPI-only and KRI-only score/weight lists
restricted to categories whose sub-score is strictly positive.  Categories
whose computation fails with an error message containing
`"no metrics found for category"` are skipped; any other failure aborts. -/
def overallLoop (s : MetricsProcessor) (scoringMethod : ScoringMethod) (n : Nat) :
    List Category →
    Except Str (List CategoryScore × List Int × List GoFloat × List Int ×
                List GoFloat × List Int × List GoFloat)
  | [] => .ok ([], [], [], [], [], [], [])
  | category :: rest =>
      match CalculateCategoryScore s scoringMethod category.ID with
      | .error err =>
          if strContainsSub err (str "no metrics found for category") then
            overallLoop s scoringMethod n rest
          else .error err
      | .ok categoryScore =>
          match overallLoop s scoringMethod n rest with
          | .error e => .error e
          | .ok (categoryScores, scores, weights, kpiScores, kpiWeights,
                 kriScores, kriWeights) =>
              .ok (categoryScore :: categoryScores,
                   categoryScore.Score :: scores,
                   weightN s n category.ID :: weights,
                   if 0 < categoryScore.KPIScore then
                     categoryScore.KPIScore :: kpiScores
                   else kpiScores,
                   if 0 < categoryScore.KPIScore then
                     weightN s n category.ID :: kpiWeights
                   else kpiWeights,
                   if 0 < categoryScore.KRIScore then
                     categoryScore.KRIScore :: kriScores
                   else kriScores,
                   if 0 < categoryScore.KRIScore then
                     weightN s n category.ID :: kriWeights
                   else kriWeights)

/-- The source's `weightedSum` loop: `Σ float64(scoreᵢ) * weightᵢ`. -/
def overallWeightedSum (scores : List Int) (weights : List GoFloat) : GoFloat :=
  goSum ((scores.zip weights).map fun vw =>
    GoFloat.mul (GoFloat.ofInt vw.1) vw.2)

/-- The source's overall KPI (or KRI) sub-score: weighted average when any
sub-score was collected, the zero value of `int` otherwise. -/
def overallSubScore (subScores : List Int) (subWeights : List GoFloat) : Int :=
  if 0 < subScores.length then calculateWeightedAverage subScores subWeights
  else 0

/-- The source's overall KPI (or KRI) sub-status: Yellow when no sub-score
was collected. -/
def overallSubStatus (subScores : List Int) (subScore : Int)
    (thresholds : Thresholds) : TrafficLightStatus :=
  if 0 < subScores.length then determineStatus subScore thresholds
  else .Yellow

/-- `CalculateOverallScore`.  The source's local variables (`weightedSum`,
`overallScore`, `kpiScore`, `kriScore` and the three statuses) are the
helper functions above. -/
def CalculateOverallScore (s : MetricsProcessor)
    (scoringMethod : ScoringMethod) : Except Str OverallScore :=
  if (GetAllCategories s).length = 0 then .error (str "no categories found")
  else
    match overallLoop s scoringMethod (GetAllCategories s).length
        (GetAllCategories s) with
    | .error e => .error e
    | .ok (categoryScores, scores, weights, kpiScores, kpiWeights,
           kriScores, kriWeights) =>
        if categoryScores.length = 0 then
          .error (str "no categories with metrics found")
        else
          .ok ⟨(overallWeightedSum scores weights).trunc,
               overallSubScore kpiScores kpiWeights,
               overallSubScore kriScores kriWeights,
               determineStatus (overallWeightedSum scores weights).trunc
                 s.leversConfig.global.thresholds,
               overallSubStatus kpiScores (overallSubScore kpiScores kpiWeights)
                 s.leversConfig.global.kpiThresholds,
               overallSubStatus kriScores (overallSubScore kriScores kriWeights)
                 s.leversConfig.global.kriThresholds,
               categoryScores⟩

/-! ## Specification-side views -/

/-- Successful result of a fallible computation, if any. -/
def exceptOk {ε α : Type} : Except ε α → Option α
  | .ok a => some a
  | .error _ => none

/-- The categories that participate in overall aggregation: those whose
category-score computation succeeds, in configuration order. -/
def participantsScores (s : MetricsProcessor) (scoringMethod : ScoringMethod) :
    List CategoryScore :=
  (GetAllCategories s).filterMap fun c =>
    exceptOk (CalculateCategoryScore s scoringMethod c.ID)

/-- The weight `CalculateOverallScore` uses for a category id. -/
def weightForID (s : MetricsProcessor) (cid : Str) : GoFloat :=
  weightN s (GetAllCategories s).length cid

theorem exceptOk_ok {ε α : Type} (a : α) : exceptOk (ε := ε) (.ok a) = some a := rfl

theorem CalculateCategoryScore_ok_ID (s : MetricsProcessor)
    (scoringMethod : ScoringMethod) (cid : Str) (cs : CategoryScore)
    (h : CalculateCategoryScore s scoringMethod cid = .ok cs) : cs.ID = cid := by
  unfold CalculateCategoryScore at h
  split at h
  · exact absurd h (by simp)
  · split at h
    · exact absurd h (by simp)
    · split at h
      · exact absurd h (by simp)
      · simp only [Except.ok.injEq] at h
        subst h
        rfl

theorem scoreMetricsLoop_spec (s : MetricsProcessor) :
    ∀ (metrics : List Metric) out,
      scoreMetricsLoop s metrics = .ok out →
      out.2.1 = out.1.map (·.Score) := by
  intro metrics
  induction metrics with
  | nil =>
      intro out h
      unfold scoreMetricsLoop at h
      simp only [Except.ok.injEq] at h
      subst h
      rfl
  | cons metric rest ih =>
      intro out h
      unfold scoreMetricsLoop at h
      cases hms : CalculateMetricScore s metric with
      | error e => rw [hms] at h; exact absurd h (by simp)
      | ok metricScore =>
          rw [hms] at h
          cases hmt : GetMetricType metric.Reference with
          | error e => rw [hmt] at h; exact absurd h (by simp)
          | ok metricType =>
              rw [hmt] at h
              cases hrest : scoreMetricsLoop s rest with
              | error e => rw [hrest] at h; exact absurd h (by simp)
              | ok tail =>
                  obtain ⟨metricScores, scores, kpiScores, kriScores⟩ := tail
                  rw [hrest] at h
                  simp only [Except.ok.injEq] at h
                  subst h
                  have htail := ih _ hrest
                  simpa using htail

theorem GetMetricType_ok (reference t : Str)
    (h : GetMetricType reference = .ok t) :
    t = (splitDot reference).getD 1 [] ∧
    (splitDot reference).length = 3 ∧
    (t = str "KPI" ∨ t = str "KRI") := by
  unfold GetMetricType at h
  split at h
  · exact absurd h (by simp)
  · split at h
    · exact absurd h (by simp)
    · rename_i hlen htype
      simp only [Except.ok.injEq] at h
      subst h
      refine ⟨rfl, by omega, ?_⟩
      by_cases h1 : (splitDot reference).getD 1 [] = str "KPI"
      · exact Or.inl h1
      · exact Or.inr (by tauto)

/-- What a successful run of `overallLoop` collects: the successful
category scores in configuration order; their scores and resolved weights;
and the KPI-only and KRI-only scores and weights, restricted to the
categories whose sub-score is strictly positive. -/
theorem overallLoop_spec (s : MetricsProcessor) (scoringMethod : ScoringMethod)
    (n : Nat) :
    ∀ (cats : List Category) out,
      overallLoop s scoringMethod n cats = .ok out →
      out.1 = cats.filterMap
        (fun c => exceptOk (CalculateCategoryScore s scoringMethod c.ID)) ∧
      out.2.1 = out.1.map (·.Score) ∧
      out.2.2.1 = out.1.map (fun cs => weightN s n cs.ID) ∧
      out.2.2.2.1 =
        (out.1.filter (fun cs => decide (0 < cs.KPIScore))).map (·.KPIScore) ∧
      out.2.2.2.2.1 =
        (out.1.filter (fun cs => decide (0 < cs.KPIScore))).map
          (fun cs => weightN s n cs.ID) ∧
      out.2.2.2.2.2.1 =
        (out.1.filter (fun cs => decide (0 < cs.KRIScore))).map (·.KRIScore) ∧
      out.2.2.2.2.2.2 =
        (out.1.filter (fun cs => decide (0 < cs.KRIScore))).map
          (fun cs => weightN s n cs.ID) := by
  intro cats
  induction cats with
  | nil =>
      intro out h
      unfold overallLoop at h
      simp only [Except.ok.injEq] at h
      subst h
      simp
  | cons category rest ih =>
      intro out h
      unfold overallLoop at h
      cases hc : CalculateCategoryScore s scoringMethod category.ID with
      | error err =>
          simp only [hc] at h
          have hnone :
              exceptOk (CalculateCategoryScore s scoringMethod category.ID) =
                none := by rw [hc]; rfl
          by_cases hskip :
            strContainsSub err (str "no metrics found for category") = true
          · rw [if_pos hskip] at h
            have hrest := ih _ h
            simpa [List.filterMap_cons, hnone] using hrest
          · rw [if_neg hskip] at h
            exact absurd h (by simp)
      | ok categoryScore =>
          simp only [hc] at h
          have hok :
              exceptOk (CalculateCategoryScore s scoringMethod category.ID) =
                some categoryScore := by rw [hc]; rfl
          cases hrest : overallLoop s scoringMethod n rest with
          | error e =>
              simp only [hrest] at h
              exact absurd h (by simp)
          | ok tail =>
              obtain ⟨cs1, sc, ws, kps, kpw, krs, krw⟩ := tail
              simp only [hrest, Except.ok.injEq] at h
              subst h
              obtain ⟨ih1, ih2, ih3, ih4, ih5, ih6, ih7⟩ := ih _ hrest
              dsimp only at ih1 ih2 ih3 ih4 ih5 ih6 ih7
              have hid : categoryScore.ID = category.ID :=
                CalculateCategoryScore_ok_ID _ _ _ _ hc
              refine ⟨by simp [List.filterMap_cons, hok, ih1],
                by simp [ih2], by simp [ih3, hid], ?_, ?_, ?_, ?_⟩
              · by_cases hk : 0 < categoryScore.KPIScore
                · simp [List.filter_cons, hk, ih4]
                · simp [List.filter_cons, hk, ih4]
              · by_cases hk : 0 < categoryScore.KPIScore
                · simp [List.filter_cons, hk, ih5, hid]
                · simp [List.filter_cons, hk, ih5]
              · by_cases hk : 0 < categoryScore.KRIScore
                · simp [List.filter_cons, hk, ih6]
                · simp [List.filter_cons, hk, ih6]
              · by_cases hk : 0 < categoryScore.KRIScore
                · simp [List.filter_cons, hk, ih7, hid]
                · simp [List.filter_cons, hk, ih7]

/-- Inversion of a successful `CalculateOverallScore`: the result fields in
terms of the loop's collected lists. -/
theorem CalculateOverallScore_ok (s : MetricsProcessor)
    (scoringMethod : ScoringMethod) (os : OverallScore)
    (h : CalculateOverallScore s scoringMethod = .ok os) :
    ∃ out,
      overallLoop s scoringMethod (GetAllCategories s).length
        (GetAllCategories s) = .ok out ∧
      out.1 ≠ [] ∧
      os.Categories = out.1 ∧
      os.Score = (overallWeightedSum out.2.1 out.2.2.1).trunc ∧
      os.KPIScore = overallSubScore out.2.2.2.1 out.2.2.2.2.1 ∧
      os.KRIScore = overallSubScore out.2.2.2.2.2.1 out.2.2.2.2.2.2 ∧
      os.Status = determineStatus os.Score s.leversConfig.global.thresholds ∧
      os.KPIStatus = overallSubStatus out.2.2.2.1 os.KPIScore
        s.leversConfig.global.kpiThresholds ∧
      os.KRIStatus = overallSubStatus out.2.2.2.2.2.1 os.KRIScore
        s.leversConfig.global.kriThresholds := by
  unfold CalculateOverallScore at h
  split at h
  · exact absurd h (by simp)
  · rename_i hlen
    cases hloop : overallLoop s scoringMethod (GetAllCategories s).length
        (GetAllCategories s) with
    | error e => rw [hloop] at h; exact absurd h (by simp)
    | ok tail =>
        obtain ⟨cs1, sc, ws, kps, kpw, krs, krw⟩ := tail
        simp only [hloop] at h
        split at h
        · exact absurd h (by simp)
        · rename_i hne
          simp only [Except.ok.injEq] at h
          subst h
          exact ⟨(cs1, sc, ws, kps, kpw, krs, krw), rfl,
            by simpa [← List.length_eq_zero] using hne,
            rfl, rfl, rfl, rfl, rfl, rfl, rfl⟩

/-! ## C1: band scoring -/

/-- The claim's reading of band containment: `value ≥ min` when `min` is
present, `value ≤ max` when `max` is present, a missing bound unbounded. -/
def claimBandMatches (value : GoFloat) (band : ScoringBand) : Bool :=
  (band.Min.all fun m => m.ble value) && (band.Max.all fun mx => value.ble mx)

theorem bandInBand_eq_claim (value : GoFloat) (band : ScoringBand) :
    bandInBand value band = claimBandMatches value band := by
  rcases band with ⟨mn, mx, sc⟩
  cases mn <;> cases mx <;>
    simp [bandInBand, claimBandMatches, GoFloat.blt, GoFloat.ble,
      ← decide_not, not_lt, not_le]

theorem scanBands_eq_find (value : GoFloat) :
    ∀ bands : List ScoringBand,
      scanBands value bands =
        (bands.find? (claimBandMatches value)).map (·.Score) := by
  intro bands
  induction bands with
  | nil => rfl
  | cons band rest ih =>
      unfold scanBands
      rw [bandInBand_eq_claim]
      by_cases h : claimBandMatches value band = true
      · rw [if_pos h, List.find?_cons_of_pos _ h]
        rfl
      · rw [if_neg h, List.find?_cons_of_neg _ h, ih]

/-- C1: with zero scoring bands the metric score is 50; otherwise the score
of the first band containing the value in declared order; otherwise the
score of the last declared band.  Stated for KPIs and KRIs alike, exactly
as the source computes them. -/
theorem claim_C1_band_scoring :
    ∀ (value : GoFloat) (kpi : KPI) (kri : KRI),
      (kpi.ScoringBands = [] → calculateKPIScore value kpi = 50) ∧
      (∀ band, kpi.ScoringBands.find? (claimBandMatches value) = some band →
          calculateKPIScore value kpi = band.Score) ∧
      (kpi.ScoringBands ≠ [] →
        kpi.ScoringBands.find? (claimBandMatches value) = none →
        ∃ lastBand, kpi.ScoringBands.getLast? = some lastBand ∧
          calculateKPIScore value kpi = lastBand.Score) ∧
      (kri.ScoringBands = [] → calculateKRIScore value kri = 50) ∧
      (∀ band, kri.ScoringBands.find? (claimBandMatches value) = some band →
          calculateKRIScore value kri = band.Score) ∧
      (kri.ScoringBands ≠ [] →
        kri.ScoringBands.find? (claimBandMatches value) = none →
        ∃ lastBand, kri.ScoringBands.getLast? = some lastBand ∧
          calculateKRIScore value kri = lastBand.Score) := by
  intro value kpi kri
  refine ⟨?_, ?_, ?_, ?_, ?_, ?_⟩
  · intro h
    unfold calculateKPIScore
    rw [if_pos (by simp [h])]
  · intro band h
    have hne : kpi.ScoringBands ≠ [] := by
      intro hnil
      rw [hnil] at h
      simp at h
    unfold calculateKPIScore
    rw [if_neg (by simpa [List.length_eq_zero] using hne),
      scanBands_eq_find, h]
    rfl
  · intro hne hnone
    have hlast : kpi.ScoringBands.getLast? ≠ none := by
      simpa [List.getLast?_eq_none_iff] using hne
    obtain ⟨lastBand, hl⟩ := Option.ne_none_iff_exists'.mp hlast
    refine ⟨lastBand, hl, ?_⟩
    unfold calculateKPIScore
    rw [if_neg (by simpa [List.length_eq_zero] using hne),
      scanBands_eq_find, hnone, hl]
    rfl
  · intro h
    unfold calculateKRIScore
    rw [if_pos (by simp [h])]
  · intro band h
    have hne : kri.ScoringBands ≠ [] := by
      intro hnil
      rw [hnil] at h
      simp at h
    unfold calculateKRIScore
    rw [if_neg (by simpa [List.length_eq_zero] using hne),
      scanBands_eq_find, h]
    rfl
  · intro hne hnone
    have hlast : kri.ScoringBands.getLast? ≠ none := by
      simpa [List.getLast?_eq_none_iff] using hne
    obtain ⟨lastBand, hl⟩ := Option.ne_none_iff_exists'.mp hlast
    refine ⟨lastBand, hl, ?_⟩
    unfold calculateKRIScore
    rw [if_neg (by simpa [List.length_eq_zero] using hne),
      scanBands_eq_find, hnone, hl]
    rfl

/-- The overlapping-bands example of the specification: value 3 against
bands `[{max:5,score:95},{min:0,max:10,score:85}]`. -/
def c1KPI : KPI :=
  ⟨str "k", str "k", [], [],
   [⟨none, some ⟨5, 1, Nat.one_pos⟩, 95⟩,
    ⟨some ⟨0, 1, Nat.one_pos⟩, some ⟨10, 1, Nat.one_pos⟩, 85⟩]⟩

/-- A no-band-matches example: value 15 against bands
`[{max:0,score:95},{min:2,max:5,score:75}]` falls back to the last band. -/
def c1KRI : KRI :=
  ⟨str "r", str "r", [], [],
   [⟨none, some ⟨0, 1, Nat.one_pos⟩, 95⟩,
    ⟨some ⟨2, 1, Nat.one_pos⟩, some ⟨5, 1, Nat.one_pos⟩, 75⟩]⟩

theorem claim_C1_witness :
    (calculateKPIScore ⟨3, 1, Nat.one_pos⟩ c1KPI = 95) ∧
    (∃ lastBand, c1KRI.ScoringBands.getLast? = some lastBand ∧
      calculateKRIScore ⟨15, 1, Nat.one_pos⟩ c1KRI = lastBand.Score) :=
  ⟨(claim_C1_band_scoring ⟨3, 1, Nat.one_pos⟩ c1KPI c1KRI).2.1
      ⟨none, some ⟨5, 1, Nat.one_pos⟩, 95⟩ (by decide),
   (claim_C1_band_scoring ⟨15, 1, Nat.one_pos⟩ c1KPI c1KRI).2.2.2.2.2
      (by decide) (by decide)⟩

/-! ## C5: status determination -/

theorem CalculateMetricScore_status (s : MetricsProcessor) (metric : Metric)
    (ms : MetricScore) (h : CalculateMetricScore s metric = .ok ms) :
    ((splitDot metric.Reference).getD 1 [] = str "KPI" →
      ms.Status = determineStatus ms.Score s.leversConfig.global.kpiThresholds) ∧
    ((splitDot metric.Reference).getD 1 [] = str "KRI" →
      ms.Status = determineStatus ms.Score s.leversConfig.global.kriThresholds) := by
  unfold CalculateMetricScore at h
  cases hdef : GetMetricDefinition s metric.Reference with
  | error e =>
      simp only [hdef] at h
      exact absurd h (by simp)
  | ok metricDef =>
      simp only [hdef] at h
      cases hmt : GetMetricType metric.Reference with
      | error e =>
          simp only [hmt] at h
          exact absurd h (by simp)
      | ok metricType =>
          simp only [hmt] at h
          obtain ⟨hmt1, hmt2, hmt3⟩ := GetMetricType_ok _ _ hmt
          by_cases hk : metricType = str "KPI"
          · rw [if_pos hk] at h
            cases metricDef with
            | kri k => exact absurd h (by simp)
            | kpi k =>
                simp only [Except.ok.injEq] at h
                subst h
                constructor
                · intro _
                  rfl
                · intro h2
                  have : str "KPI" = str "KRI" := by rw [← hk, hmt1, h2]
                  exact absurd this (by decide)
          · rw [if_neg hk] at h
            by_cases hr : metricType = str "KRI"
            · rw [if_pos hr] at h
              cases metricDef with
              | kpi k => exact absurd h (by simp)
              | kri k =>
                  simp only [Except.ok.injEq] at h
                  subst h
                  constructor
                  · intro h1
                    have : str "KRI" = str "KPI" := by rw [← hr, hmt1, h1]
                    exact absurd this (by decide)
                  · intro _
                    rfl
            · rw [if_neg hr] at h
              rcases hmt3 with h3 | h3 <;> simp [h3] at hk hr

/-- The boundary-example thresholds Green=[80,100], Yellow=[60,79],
Red=[0,59]. -/
def c5Thresholds : Thresholds := ⟨⟨80, 100⟩, ⟨60, 79⟩, ⟨0, 59⟩⟩

/-- C5: status is Green when the score lies inclusively in the green range,
else Yellow when in the yellow range, else Red; a single metric is
classified against the KPI-specific or KRI-specific global thresholds
according to its type segment; and the boundary examples. -/
theorem claim_C5_status :
    (∀ (score : Int) (th : Thresholds),
      (th.Green.Min ≤ score ∧ score ≤ th.Green.Max →
        determineStatus score th = .Green) ∧
      (¬(th.Green.Min ≤ score ∧ score ≤ th.Green.Max) →
        th.Yellow.Min ≤ score ∧ score ≤ th.Yellow.Max →
        determineStatus score th = .Yellow) ∧
      (¬(th.Green.Min ≤ score ∧ score ≤ th.Green.Max) →
        ¬(th.Yellow.Min ≤ score ∧ score ≤ th.Yellow.Max) →
        determineStatus score th = .Red)) ∧
    (∀ (s : MetricsProcessor) (metric : Metric) (ms : MetricScore),
      CalculateMetricScore s metric = .ok ms →
        ((splitDot metric.Reference).getD 1 [] = str "KPI" →
          ms.Status =
            determineStatus ms.Score s.leversConfig.global.kpiThresholds) ∧
        ((splitDot metric.Reference).getD 1 [] = str "KRI" →
          ms.Status =
            determineStatus ms.Score s.leversConfig.global.kriThresholds)) ∧
    (determineStatus 80 c5Thresholds = .Green ∧
     determineStatus 79 c5Thresholds = .Yellow ∧
     determineStatus 60 c5Thresholds = .Yellow ∧
     determineStatus 59 c5Thresholds = .Red) := by
  refine ⟨?_, CalculateMetricScore_status, by decide⟩
  intro score th
  refine ⟨?_, ?_, ?_⟩
  · intro hg
    unfold determineStatus
    rw [if_pos hg]
  · intro hg hy
    unfold determineStatus
    rw [if_neg hg, if_pos hy]
  · intro hg hy
    unfold determineStatus
    rw [if_neg hg, if_neg hy]

/-- A one-category, one-KPI-metric state used by several witnesses: the
KPI `a.KPI.x` has a single unbounded band of score 85, the recorded value
is 45, and all global thresholds are the boundary-example thresholds. -/
def exState : MetricsProcessor :=
  ⟨⟨[⟨str "a", str "A", [], [⟨str "x", str "X", [], [],
        [⟨none, none, 85⟩]⟩], []⟩]⟩,
   ⟨⟨c5Thresholds, c5Thresholds, c5Thresholds⟩, ⟨[], [], [], []⟩⟩,
   ⟨[⟨str "a.KPI.x", ⟨45, 1, Nat.one_pos⟩, 0, []⟩]⟩⟩

theorem claim_C5_witness :
    ((85 : Int) ≤ 100 ∧ determineStatus 85 c5Thresholds = .Green) ∧
    (CalculateMetricScore exState ⟨str "a.KPI.x", ⟨45, 1, Nat.one_pos⟩, 0, []⟩ =
      .ok ⟨str "a.KPI.x", 85, .Green⟩ ∧
     TrafficLightStatus.Green =
       determineStatus 85 exState.leversConfig.global.kpiThresholds) :=
  ⟨⟨by decide,
    (claim_C5_status.1 85 c5Thresholds).1 (by decide)⟩,
   ⟨by decide,
    (claim_C5_status.2.1 exState ⟨str "a.KPI.x", ⟨45, 1, Nat.one_pos⟩, 0, []⟩
        ⟨str "a.KPI.x", 85, .Green⟩ (by decide)).1 (by decide)⟩⟩

/-! ## C4: median and average aggregation -/

theorem CalculateCategoryScore_ok_score (s : MetricsProcessor)
    (scoringMethod : ScoringMethod) (cid : Str) (cs : CategoryScore)
    (h : CalculateCategoryScore s scoringMethod cid = .ok cs) :
    cs.Score = aggregateScores scoringMethod (cs.Metrics.map (·.Score)) := by
  unfold CalculateCategoryScore at h
  cases hcat : GetCategoryByID s cid with
  | error e =>
      simp only [hcat] at h
      exact absurd h (by simp)
  | ok category =>
      simp only [hcat] at h
      by_cases hlen : (GetMetricsByCategory s cid).length = 0
      · rw [if_pos hlen] at h
        exact absurd h (by simp)
      · rw [if_neg hlen] at h
        cases hloop : scoreMetricsLoop s (GetMetricsByCategory s cid) with
        | error e =>
            simp only [hloop] at h
            exact absurd h (by simp)
        | ok tuple =>
            obtain ⟨metricScores, scores, kpiScores, kriScores⟩ := tuple
            simp only [hloop, Except.ok.injEq] at h
            subst h
            have hsc := scoreMetricsLoop_spec s _ _ hloop
            dsimp only at hsc
            dsimp only
            rw [hsc]

/-- C4 (amended): under the Median method category aggregation sorts
ascending and returns the middle element for odd counts, and the
Go-truncated (toward zero, not floored) average of the two middle elements
for even counts; under the Average method it returns the truncated-toward-
zero arithmetic mean.  On the nonnegative scores of the examples the
truncation coincides with the claim's floor. -/
theorem claim_C4_amended :
    (∀ (values w : List Int), values ≠ [] → w.Perm values →
      w.Sorted (· ≤ ·) →
      calculateMedian values =
        (if values.length % 2 = 1 then w.getD (values.length / 2) 0
         else (w.getD (values.length / 2 - 1) 0 +
               w.getD (values.length / 2) 0).tdiv 2)) ∧
    (∀ values : List Int, values ≠ [] →
      calculateAverage values = (sumInts values).tdiv (values.length : Int)) ∧
    (∀ (s : MetricsProcessor) (cid : Str) (cs : CategoryScore),
      CalculateCategoryScore s (str "median") cid = .ok cs →
        cs.Score = calculateMedian (cs.Metrics.map (·.Score))) ∧
    (∀ (s : MetricsProcessor) (cid : Str) (cs : CategoryScore),
      CalculateCategoryScore s (str "average") cid = .ok cs →
        cs.Score = calculateAverage (cs.Metrics.map (·.Score))) ∧
    (calculateMedian [95, 75] = 85 ∧ calculateMedian [95, 75, 65] = 75 ∧
     calculateAverage [95, 74] = 84) := by
  refine ⟨?_, ?_, ?_, ?_, by decide⟩
  · intro values w hne hperm hsorted
    have hw : w = List.insertionSort (· ≤ ·) values :=
      List.eq_of_perm_of_sorted
        (hperm.trans (List.perm_insertionSort (· ≤ ·) values).symm)
        hsorted (List.sorted_insertionSort (· ≤ ·) values)
    subst hw
    have hlen : (List.insertionSort (· ≤ ·) values).length = values.length :=
      (List.perm_insertionSort (· ≤ ·) values).length_eq
    unfold calculateMedian
    rw [if_neg (by simpa [List.length_eq_zero] using hne), hlen]
    rcases Nat.mod_two_eq_zero_or_one values.length with h2 | h2
    · rw [if_pos h2, if_neg (by omega)]
    · rw [if_neg (by omega), if_pos h2]
  · intro values hne
    unfold calculateAverage
    rw [if_neg (by simpa [List.length_eq_zero] using hne)]
  · intro s cid cs h
    have := CalculateCategoryScore_ok_score s (str "median") cid cs h
    simpa [aggregateScores] using this
  · intro s cid cs h
    have := CalculateCategoryScore_ok_score s (str "average") cid cs h
    rw [this, aggregateScores, if_neg (by decide)]

/-- C4 as stated is false on negative scores: the two middle elements of
`[0, -3]` sorted are `-3` and `0`; their floor-average is `-2`, but the
source's Go integer division truncates toward zero and returns `-1`. -/
theorem claim_C4_counterexample :
    calculateMedian [0, -3] = -1 ∧
    List.Sorted (· ≤ ·) [-3, 0] ∧ List.Perm [-3, 0] [0, -3] ∧
    Int.fdiv (-3 + 0) 2 = -2 ∧ ((-1 : Int) = -2 → False) := by
  refine ⟨by decide, by decide, ?_, by decide, by decide⟩
  exact List.Perm.swap 0 (-3) []

theorem claim_C4_witness :
    (calculateMedian [95, 75] =
      (if ([95, 75] : List Int).length % 2 = 1 then
        ([75, 95] : List Int).getD (([95, 75] : List Int).length / 2) 0
       else (([75, 95] : List Int).getD (([95, 75] : List Int).length / 2 - 1) 0 +
             ([75, 95] : List Int).getD (([95, 75] : List Int).length / 2) 0).tdiv 2)) ∧
    (calculateAverage [95, 74] =
      (sumInts [95, 74]).tdiv (([95, 74] : List Int).length : Int)) ∧
    ((⟨str "a", str "A", 85, 85, 0, .Green, .Green, .Yellow,
        [⟨str "a.KPI.x", 85, .Green⟩]⟩ : CategoryScore).Score =
      calculateMedian
        (((⟨str "a", str "A", 85, 85, 0, .Green, .Green, .Yellow,
            [⟨str "a.KPI.x", 85, .Green⟩]⟩ : CategoryScore)).Metrics.map
          (·.Score))) :=
  ⟨claim_C4_amended.1 [95, 75] [75, 95] (by decide) (by decide) (by decide),
   claim_C4_amended.2.1 [95, 74] (by decide),
   claim_C4_amended.2.2.1 exState (str "a")
     ⟨str "a", str "A", 85, 85, 0, .Green, .Green, .Yellow,
      [⟨str "a.KPI.x", 85, .Green⟩]⟩ (by decide)⟩

/-! ## C2: overall score as a truncated weighted sum -/

/-- The claim's overall formula: `Σ (scoreᵢ × weightᵢ)` in exact rational
arithmetic, over the participating categories in configuration order, each
weighted by its resolved category weight. -/
def specOverallSumQ (s : MetricsProcessor) (scoringMethod : ScoringMethod) : ℚ :=
  ((participantsScores s scoringMethod).map fun cs =>
    (cs.Score : ℚ) * (weightForID s cs.ID).toRat).sum

/-- The two-category example: scores 85 (weight 0.6) and 95 (weight 0.4). -/
def c2State : MetricsProcessor :=
  ⟨⟨[⟨str "a", str "A", [], [⟨str "x", str "X", [], [],
        [⟨none, none, 85⟩]⟩], []⟩,
     ⟨str "b", str "B", [], [⟨str "y", str "Y", [], [],
        [⟨none, none, 95⟩]⟩], []⟩]⟩,
   ⟨⟨c5Thresholds, c5Thresholds, c5Thresholds⟩,
    ⟨[(str "a", ⟨3, 5, by decide⟩), (str "b", ⟨2, 5, by decide⟩)],
     [], [], []⟩⟩,
   ⟨[⟨str "a.KPI.x", ⟨45, 1, Nat.one_pos⟩, 0, []⟩,
     ⟨str "b.KPI.y", ⟨45, 1, Nat.one_pos⟩, 0, []⟩]⟩⟩

/-- The overall result the source computes on `c2State`. -/
def c2Overall : OverallScore :=
  match CalculateOverallScore c2State (str "median") with
  | .ok os => os
  | .error _ => ⟨0, 0, 0, .Red, .Red, .Red, []⟩

/-- C2: a successful overall score equals the integer truncation of
`Σ (scoreᵢ × weightᵢ)` over the participating categories; on the
85/0.6, 95/0.4 example the overall score is 89. -/
theorem claim_C2_overall_weighted_sum :
    (∀ (s : MetricsProcessor) (scoringMethod : ScoringMethod)
        (os : OverallScore),
      CalculateOverallScore s scoringMethod = .ok os →
        os.Score = ratTruncZ (specOverallSumQ s scoringMethod)) ∧
    (CalculateOverallScore c2State (str "median") = .ok c2Overall ∧
     c2Overall.Score = 89) := by
  constructor
  · intro s scoringMethod os h
    obtain ⟨out, hloop, hne, hcats, hscore, _⟩ :=
      CalculateOverallScore_ok s scoringMethod os h
    obtain ⟨h1, h2, h3, _⟩ := overallLoop_spec s scoringMethod _ _ _ hloop
    rw [hscore, GoFloat.trunc_eq]
    congr 1
    rw [overallWeightedSum, goSum_toRat, h2, h3, List.zip_map',
      List.map_map, List.map_map]
    unfold specOverallSumQ participantsScores weightForID
    rw [← h1]
    congr 1
    apply List.map_congr_left
    intro cs _
    simp [Function.comp, GoFloat.toRat_mul, GoFloat.toRat_ofInt]
  · exact ⟨by decide, by decide⟩

theorem claim_C2_witness :
    c2Overall.Score = ratTruncZ (specOverallSumQ c2State (str "median")) :=
  claim_C2_overall_weighted_sum.1 c2State (str "median") c2Overall (by decide)

/-! ## C3: default category weight -/

/-- The overall sum the claim asserts: missing weights default to
`1/(number of categories with metrics)`, i.e. one over the number of
participating categories. -/
def claimOverallSumQ (s : MetricsProcessor) (scoringMethod : ScoringMethod) : ℚ :=
  ((participantsScores s scoringMethod).map fun cs =>
    (cs.Score : ℚ) *
      (match List.lookup cs.ID s.leversConfig.weights.Categories with
       | some w => w.toRat
       | none => 1 / ((participantsScores s scoringMethod).length : ℚ))).sum

/-- Three categories, one of them without recorded metrics; no configured
weights; the two recorded KPI metrics both score 90. -/
def c3State : MetricsProcessor :=
  ⟨⟨[⟨str "a", str "A", [], [⟨str "x", str "X", [], [],
        [⟨none, none, 90⟩]⟩], []⟩,
     ⟨str "b", str "B", [], [⟨str "y", str "Y", [], [],
        [⟨none, none, 90⟩]⟩], []⟩,
     ⟨str "c", str "C", [], [⟨str "z", str "Z", [], [],
        [⟨none, none, 90⟩]⟩], []⟩]⟩,
   ⟨⟨c5Thresholds, c5Thresholds, c5Thresholds⟩, ⟨[], [], [], []⟩⟩,
   ⟨[⟨str "a.KPI.x", ⟨45, 1, Nat.one_pos⟩, 0, []⟩,
     ⟨str "b.KPI.y", ⟨45, 1, Nat.one_pos⟩, 0, []⟩]⟩⟩

/-- The overall result the source computes on `c3State`. -/
def c3Overall : OverallScore :=
  match CalculateOverallScore c3State (str "median") with
  | .ok os => os
  | .error _ => ⟨0, 0, 0, .Red, .Red, .Red, []⟩

/-- The category score both participating categories of `c3State` get. -/
def c3Cat (cid cname ref : String) : CategoryScore :=
  ⟨str cid, str cname, 90, 90, 0, .Green, .Green, .Yellow,
   [⟨str ref, 90, .Green⟩]⟩

/-- C3 as stated is false: with two participating categories out of three
configured, the claim's default weight would be 1/2 and the overall score
90, but the source divides by the total category count (weight 1/3 each),
giving `int(90/3 + 90/3) = 60`. -/
theorem claim_C3_counterexample :
    CalculateOverallScore c3State (str "median") = .ok c3Overall ∧
    c3Overall.Categories.length = 2 ∧
    c3Overall.Score = 60 ∧
    ratTruncZ (claimOverallSumQ c3State (str "median")) = 90 ∧
    ((60 : Int) = 90 → False) := by
  refine ⟨by decide, by decide, by decide, ?_, by decide⟩
  have hp : participantsScores c3State (str "median") =
      [c3Cat "a" "A" "a.KPI.x", c3Cat "b" "B" "b.KPI.y"] := by decide
  rw [claimOverallSumQ, hp]
  have h90 : ((c3Cat "a" "A" "a.KPI.x").Score : ℚ) = 90 := by norm_num [c3Cat]
  have h90b : ((c3Cat "b" "B" "b.KPI.y").Score : ℚ) = 90 := by norm_num [c3Cat]
  simp only [List.map_cons, List.map_nil, List.sum_cons, List.sum_nil,
    List.length_cons, List.length_nil, List.lookup, h90, h90b]
  norm_num [c3State, ratTruncZ]

/-- C3 (amended): the weight used for a participating category is its
configured weight, defaulting to 1 over the **total** number of configured
categories (including categories later skipped for lack of metrics). -/
theorem claim_C3_amended :
    (∀ (s : MetricsProcessor) (scoringMethod : ScoringMethod)
        (os : OverallScore),
      CalculateOverallScore s scoringMethod = .ok os →
        os.Score = ratTruncZ
          ((os.Categories.map fun cs =>
            (cs.Score : ℚ) * (weightForID s cs.ID).toRat).sum)) ∧
    (∀ (s : MetricsProcessor) (cid : Str),
      List.lookup cid s.leversConfig.weights.Categories = none →
      0 < (GetAllCategories s).length →
        (weightForID s cid).toRat = 1 / ((GetAllCategories s).length : ℚ)) := by
  constructor
  · intro s scoringMethod os h
    obtain ⟨out, hloop, hne, hcats, hscore, _⟩ :=
      CalculateOverallScore_ok s scoringMethod os h
    obtain ⟨h1, h2, h3, _⟩ := overallLoop_spec s scoringMethod _ _ _ hloop
    rw [hscore, GoFloat.trunc_eq]
    congr 1
    rw [overallWeightedSum, goSum_toRat, h2, h3, List.zip_map',
      List.map_map, List.map_map, hcats]
    congr 1
    apply List.map_congr_left
    intro cs _
    simp [Function.comp, GoFloat.toRat_mul, GoFloat.toRat_ofInt, weightForID]
  · intro s cid hnone hpos
    rw [weightForID, weightN, hnone]
    unfold equalWeight GoFloat.toRat
    dsimp only
    have hmax : max (GetAllCategories s).length 1 = (GetAllCategories s).length :=
      Nat.max_eq_left hpos
    rw [hmax]
    norm_num

theorem claim_C3_witness :
    (c3Overall.Score = ratTruncZ
      ((c3Overall.Categories.map fun cs =>
        (cs.Score : ℚ) * (weightForID c3State cs.ID).toRat).sum)) ∧
    ((weightForID c3State (str "a")).toRat =
      1 / ((GetAllCategories c3State).length : ℚ)) :=
  ⟨claim_C3_amended.1 c3State (str "median") c3Overall (by decide),
   claim_C3_amended.2 c3State (str "a") (by decide) (by decide)⟩

/-! ## C8: overall KPI and KRI sub-scores -/

/-- The claim's reading of "contributed a KPI score": the category score
contains at least one KPI-typed metric. -/
def hasKPIMetric (cs : CategoryScore) : Bool :=
  cs.Metrics.any fun m => decide ((splitDot m.Reference).getD 1 [] = str "KPI")

/-- The claim's overall-KPI formula: `Σ subscoreᵢ·wᵢ / Σ wᵢ` over exactly
the participating categories that contributed a KPI score. -/
def claimKPIAvgQ (s : MetricsProcessor) (scoringMethod : ScoringMethod) : ℚ :=
  (((participantsScores s scoringMethod).filter hasKPIMetric).map fun cs =>
      (cs.KPIScore : ℚ) * (weightForID s cs.ID).toRat).sum /
  (((participantsScores s scoringMethod).filter hasKPIMetric).map fun cs =>
      (weightForID s cs.ID).toRat).sum

/-- Two categories with KPI metrics: category a's single KPI scores 0,
category b's scores 80; equal default weights 1/2. -/
def c8State : MetricsProcessor :=
  ⟨⟨[⟨str "a", str "A", [], [⟨str "x", str "X", [], [],
        [⟨none, none, 0⟩]⟩], []⟩,
     ⟨str "b", str "B", [], [⟨str "y", str "Y", [], [],
        [⟨none, none, 80⟩]⟩], []⟩]⟩,
   ⟨⟨c5Thresholds, c5Thresholds, c5Thresholds⟩, ⟨[], [], [], []⟩⟩,
   ⟨[⟨str "a.KPI.x", ⟨45, 1, Nat.one_pos⟩, 0, []⟩,
     ⟨str "b.KPI.y", ⟨45, 1, Nat.one_pos⟩, 0, []⟩]⟩⟩

/-- The overall result the source computes on `c8State`. -/
def c8Overall : OverallScore :=
  match CalculateOverallScore c8State (str "median") with
  | .ok os => os
  | .error _ => ⟨0, 0, 0, .Red, .Red, .Red, []⟩

/-- C8 as stated is false: category a contributed a KPI score (its KPI
metric scored 0), so the claimed average is `int((0·½ + 80·½)/(½+½)) = 40`;
but the source includes a category's sub-score only when it is strictly
positive (`KPIScore > 0`), so it drops category a and returns 80. -/
theorem claim_C8_counterexample :
    CalculateOverallScore c8State (str "median") = .ok c8Overall ∧
    c8Overall.KPIScore = 80 ∧
    (participantsScores c8State (str "median")).countP hasKPIMetric = 2 ∧
    ratTruncZ (claimKPIAvgQ c8State (str "median")) = 40 ∧
    ((80 : Int) = 40 → False) := by
  refine ⟨by decide, by decide, by decide, ?_, by decide⟩
  have hp : (participantsScores c8State (str "median")).filter hasKPIMetric =
      [⟨str "a", str "A", 0, 0, 0, .Red, .Red, .Yellow,
        [⟨str "a.KPI.x", 0, .Red⟩]⟩,
       ⟨str "b", str "B", 80, 80, 0, .Green, .Green, .Yellow,
        [⟨str "b.KPI.y", 80, .Green⟩]⟩] := by decide
  have hw : ∀ cid : Str, (weightForID c8State cid).toRat = 1 / 2 := by
    intro cid
    rw [weightForID, weightN]
    have : List.lookup cid c8State.leversConfig.weights.Categories = none := rfl
    rw [this]
    norm_num [equalWeight, GoFloat.toRat, c8State, GetAllCategories]
  rw [claimKPIAvgQ, hp]
  simp only [List.map_cons, List.map_nil, List.sum_cons, List.sum_nil, hw]
  norm_num [ratTruncZ]

/-- C8 (amended): the overall KPIScore (resp. KRIScore) aggregates exactly
the participating categories whose KPI (resp. KRI) sub-score is strictly
positive — a category whose sub-score is 0, including every category
without KPI (resp. KRI) metrics, is excluded from both the numerator and
the weight total; when any remain and their weights sum to a positive
total, the result is `int(Σ vᵢ·wᵢ / Σ wᵢ)` in exact arithmetic. -/
theorem claim_C8_amended :
    (∀ (s : MetricsProcessor) (scoringMethod : ScoringMethod)
        (os : OverallScore),
      CalculateOverallScore s scoringMethod = .ok os →
        os.KPIScore =
          (if ((participantsScores s scoringMethod).filter
              fun cs => decide (0 < cs.KPIScore)) = [] then 0
           else calculateWeightedAverage
             (((participantsScores s scoringMethod).filter
                fun cs => decide (0 < cs.KPIScore)).map (·.KPIScore))
             (((participantsScores s scoringMethod).filter
                fun cs => decide (0 < cs.KPIScore)).map
                  fun cs => weightForID s cs.ID)) ∧
        os.KRIScore =
          (if ((participantsScores s scoringMethod).filter
              fun cs => decide (0 < cs.KRIScore)) = [] then 0
           else calculateWeightedAverage
             (((participantsScores s scoringMethod).filter
                fun cs => decide (0 < cs.KRIScore)).map (·.KRIScore))
             (((participantsScores s scoringMethod).filter
                fun cs => decide (0 < cs.KRIScore)).map
                  fun cs => weightForID s cs.ID))) ∧
    (∀ (values : List Int) (weights : List GoFloat),
      values ≠ [] → values.length = weights.length →
      (goSum weights).ble (GoFloat.ofInt 0) = false →
      calculateWeightedAverage values weights =
        ratTruncZ
          (((values.zip weights).map fun vw => (vw.1 : ℚ) * vw.2.toRat).sum /
           (weights.map GoFloat.toRat).sum)) := by
  constructor
  · intro s scoringMethod os h
    obtain ⟨out, hloop, hne, hcats, _, hkpi, hkri, _⟩ :=
      CalculateOverallScore_ok s scoringMethod os h
    obtain ⟨h1, _, _, h4, h5, h6, h7⟩ :=
      overallLoop_spec s scoringMethod _ _ _ hloop
    have hparts : participantsScores s scoringMethod = out.1 := by
      rw [participantsScores, ← h1]
    constructor
    · rw [hkpi, overallSubScore, h4, h5, hparts]
      by_cases hfp : (out.1.filter fun cs => decide (0 < cs.KPIScore)) = []
      · rw [if_pos hfp, hfp]
        simp
      · rw [if_neg hfp]
        have : 0 < ((out.1.filter fun cs => decide (0 < cs.KPIScore)).map
            (·.KPIScore)).length := by
          simpa [List.length_pos] using hfp
        rw [if_pos this]
        rfl
    · rw [hkri, overallSubScore, h6, h7, hparts]
      by_cases hfp : (out.1.filter fun cs => decide (0 < cs.KRIScore)) = []
      · rw [if_pos hfp, hfp]
        simp
      · rw [if_neg hfp]
        have : 0 < ((out.1.filter fun cs => decide (0 < cs.KRIScore)).map
            (·.KRIScore)).length := by
          simpa [List.length_pos] using hfp
        rw [if_pos this]
        rfl
  · intro values weights hne hlen hble
    unfold calculateWeightedAverage
    rw [if_neg (by
      push_neg
      exact ⟨by simpa [List.length_eq_zero] using hne, by omega⟩)]
    rw [if_neg (by simp [hble])]
    have hpos : 0 < (goSum weights).num := by
      have := hble
      simp only [GoFloat.ble, GoFloat.ofInt, decide_eq_false_iff_not, not_le] at this
      simpa using this
    rw [GoFloat.truncDiv_eq _ _ hpos]
    congr 1
    rw [goSum_toRat, goSum_toRat, List.map_map]
    congr 1
    congr 1
    apply List.map_congr_left
    intro vw _
    simp [Function.comp, GoFloat.toRat_mul, GoFloat.toRat_ofInt]

theorem claim_C8_witness :
    (c8Overall.KPIScore =
      (if ((participantsScores c8State (str "median")).filter
          fun cs => decide (0 < cs.KPIScore)) = [] then 0
       else calculateWeightedAverage
         (((participantsScores c8State (str "median")).filter
            fun cs => decide (0 < cs.KPIScore)).map (·.KPIScore))
         (((participantsScores c8State (str "median")).filter
            fun cs => decide (0 < cs.KPIScore)).map
              fun cs => weightForID c8State cs.ID))) ∧
    (calculateWeightedAverage [80] ([⟨1, 2, by decide⟩] : List GoFloat) =
      ratTruncZ
        (((([80] : List Int).zip ([⟨1, 2, by decide⟩] : List GoFloat)).map
            fun vw => (vw.1 : ℚ) * vw.2.toRat).sum /
         (([⟨1, 2, by decide⟩] : List GoFloat).map GoFloat.toRat).sum)) :=
  ⟨(claim_C8_amended.1 c8State (str "median") c8Overall (by decide)).1,
   claim_C8_amended.2 [80] ([⟨1, 2, by decide⟩] : List GoFloat) (by decide)
     (by decide) (by decide)⟩

/-! ## C6: skipping of failing categories -/

theorem overallLoop_abort (s : MetricsProcessor) (scoringMethod : ScoringMethod)
    (n : Nat) :
    ∀ cats : List Category,
      (∃ c ∈ cats, ∃ e, CalculateCategoryScore s scoringMethod c.ID = .error e ∧
        strContainsSub e (str "no metrics found for category") = false) →
      ∃ e', overallLoop s scoringMethod n cats = .error e' := by
  intro cats
  induction cats with
  | nil => rintro ⟨c, hc, _⟩; exact absurd hc (by simp)
  | cons category rest ih =>
      rintro ⟨c, hc, e, herr, hnc⟩
      rcases List.mem_cons.mp hc with hhead | htail
      · subst hhead
        refine ⟨e, ?_⟩
        unfold overallLoop
        simp only [herr]
        rw [if_neg (by simp [hnc])]
      · cases hcat : CalculateCategoryScore s scoringMethod category.ID with
        | error err =>
            by_cases hskip :
              strContainsSub err (str "no metrics found for category") = true
            · obtain ⟨e', he'⟩ := ih ⟨c, htail, e, herr, hnc⟩
              refine ⟨e', ?_⟩
              unfold overallLoop
              simp only [hcat]
              rw [if_pos hskip]
              exact he'
            · refine ⟨err, ?_⟩
              unfold overallLoop
              simp only [hcat]
              rw [if_neg hskip]
        | ok categoryScore =>
            obtain ⟨e', he'⟩ := ih ⟨c, htail, e, herr, hnc⟩
            refine ⟨e', ?_⟩
            unfold overallLoop
            simp only [hcat, he']

theorem overallLoop_all_skip (s : MetricsProcessor)
    (scoringMethod : ScoringMethod) (n : Nat) :
    ∀ cats : List Category,
      (∀ c ∈ cats, ∃ e, CalculateCategoryScore s scoringMethod c.ID = .error e ∧
        strContainsSub e (str "no metrics found for category") = true) →
      overallLoop s scoringMethod n cats = .ok ([], [], [], [], [], [], []) := by
  intro cats
  induction cats with
  | nil => intro _; rfl
  | cons category rest ih =>
      intro hall
      obtain ⟨e, herr, hct⟩ := hall category (by simp)
      unfold overallLoop
      simp only [herr]
      rw [if_pos hct]
      exact ih fun c hc => hall c (by simp [hc])

theorem CalculateCategoryScore_no_metrics (s : MetricsProcessor)
    (scoringMethod : ScoringMethod) (cid : Str) (category : Category)
    (hcat : GetCategoryByID s cid = .ok category)
    (hempty : GetMetricsByCategory s cid = []) :
    CalculateCategoryScore s scoringMethod cid =
      .error (str "no metrics found for category: " ++ cid) := by
  unfold CalculateCategoryScore
  simp only [hcat]
  rw [if_pos (by simp [hempty])]

/-- C6 (amended): the skip is by error-message substring matching.  A
successful overall run keeps exactly the categories whose computation
succeeded; any per-category failure whose message does not contain
`"no metrics found for category"` aborts the whole computation; if the
category list is non-empty and every category fails with a matching
message, the result is the no-categories-with-metrics error; a configured
category without recorded metrics fails with exactly the no-metrics
message, and that message contains the matched substring. -/
theorem claim_C6_amended :
    (∀ (s : MetricsProcessor) (scoringMethod : ScoringMethod)
        (os : OverallScore),
      CalculateOverallScore s scoringMethod = .ok os →
        os.Categories = (GetAllCategories s).filterMap
          (fun c => exceptOk (CalculateCategoryScore s scoringMethod c.ID))) ∧
    (∀ (s : MetricsProcessor) (scoringMethod : ScoringMethod),
      (∃ c ∈ GetAllCategories s, ∃ e,
        CalculateCategoryScore s scoringMethod c.ID = .error e ∧
        strContainsSub e (str "no metrics found for category") = false) →
      ∃ e', CalculateOverallScore s scoringMethod = .error e') ∧
    (∀ (s : MetricsProcessor) (scoringMethod : ScoringMethod),
      GetAllCategories s ≠ [] →
      (∀ c ∈ GetAllCategories s, ∃ e,
        CalculateCategoryScore s scoringMethod c.ID = .error e ∧
        strContainsSub e (str "no metrics found for category") = true) →
      CalculateOverallScore s scoringMethod =
        .error (str "no categories with metrics found")) ∧
    (∀ (s : MetricsProcessor) (scoringMethod : ScoringMethod) (cid : Str)
        (category : Category),
      GetCategoryByID s cid = .ok category →
      GetMetricsByCategory s cid = [] →
      CalculateCategoryScore s scoringMethod cid =
        .error (str "no metrics found for category: " ++ cid)) ∧
    (∀ cid : Str,
      strContainsSub (str "no metrics found for category: " ++ cid)
        (str "no metrics found for category") = true) := by
  refine ⟨?_, ?_, ?_, CalculateCategoryScore_no_metrics, ?_⟩
  · intro s scoringMethod os h
    obtain ⟨out, hloop, _, hcats, _⟩ := CalculateOverallScore_ok s scoringMethod os h
    obtain ⟨h1, _⟩ := overallLoop_spec s scoringMethod _ _ _ hloop
    rw [hcats, h1]
  · intro s scoringMethod hex
    by_cases hlen : (GetAllCategories s).length = 0
    · exact ⟨str "no categories found", by
        unfold CalculateOverallScore
        rw [if_pos hlen]⟩
    · obtain ⟨e', he'⟩ := overallLoop_abort s scoringMethod
        (GetAllCategories s).length (GetAllCategories s) hex
      refine ⟨e', ?_⟩
      unfold CalculateOverallScore
      rw [if_neg hlen]
      simp only [he']
  · intro s scoringMethod hne hall
    have hloop := overallLoop_all_skip s scoringMethod
      (GetAllCategories s).length (GetAllCategories s) hall
    unfold CalculateOverallScore
    rw [if_neg (by simpa [List.length_eq_zero] using hne)]
    simp only [hloop]
    rfl
  · intro cid
    have hsplit : str "no metrics found for category: " =
        str "no metrics found for category" ++ str ": " := by decide
    rw [hsplit, List.append_assoc]
    exact strContainsSub_append _ _

/-- A category whose id is the string `"no metrics found for category"`,
holding one recorded metric whose reference (the same dotless string) fails
reference resolution, next to one healthy category. -/
def c6AdvID : Str := str "no metrics found for category"

def c6AdvState : MetricsProcessor :=
  ⟨⟨[⟨c6AdvID, str "W", [], [], []⟩,
     ⟨str "b", str "B", [], [⟨str "y", str "Y", [], [],
        [⟨none, none, 85⟩]⟩], []⟩]⟩,
   ⟨⟨c5Thresholds, c5Thresholds, c5Thresholds⟩, ⟨[], [], [], []⟩⟩,
   ⟨[⟨c6AdvID, ⟨1, 1, Nat.one_pos⟩, 0, []⟩,
     ⟨str "b.KPI.y", ⟨45, 1, Nat.one_pos⟩, 0, []⟩]⟩⟩

/-- The overall result the source computes on `c6AdvState`. -/
def c6AdvOverall : OverallScore :=
  match CalculateOverallScore c6AdvState (str "median") with
  | .ok os => os
  | .error _ => ⟨0, 0, 0, .Red, .Red, .Red, []⟩

/-- C6 as stated is false: the adversarial category HAS a recorded metric,
and its computation fails with an invalid-reference error — not a
no-metrics failure — yet the overall computation does not abort: the error
message happens to contain `"no metrics found for category"`, so the
category is silently skipped and the overall run succeeds with one
category. -/
theorem claim_C6_counterexample :
    GetMetricsByCategory c6AdvState c6AdvID ≠ [] ∧
    CalculateCategoryScore c6AdvState (str "median") c6AdvID =
      .error (str "invalid metric reference format: " ++ c6AdvID) ∧
    (str "invalid metric reference format: " ++ c6AdvID ≠
      str "no metrics found for category: " ++ c6AdvID) ∧
    CalculateOverallScore c6AdvState (str "median") = .ok c6AdvOverall ∧
    c6AdvOverall.Categories.length = 1 := by
  refine ⟨by decide, by decide, by decide, by decide, by decide⟩

/-- A single category with a recorded metric whose KPI id has no
definition: its failure message does not contain the skip substring. -/
def c6AbortState : MetricsProcessor :=
  ⟨⟨[⟨str "d", str "D", [], [], []⟩]⟩,
   ⟨⟨c5Thresholds, c5Thresholds, c5Thresholds⟩, ⟨[], [], [], []⟩⟩,
   ⟨[⟨str "d.KPI.zz", ⟨1, 1, Nat.one_pos⟩, 0, []⟩]⟩⟩

/-- A single category with no recorded metrics at all. -/
def c6EmptyState : MetricsProcessor :=
  ⟨⟨[⟨str "e", str "E", [], [], []⟩]⟩,
   ⟨⟨c5Thresholds, c5Thresholds, c5Thresholds⟩, ⟨[], [], [], []⟩⟩,
   ⟨[]⟩⟩

theorem claim_C6_witness :
    (c3Overall.Categories = (GetAllCategories c3State).filterMap
      (fun c => exceptOk (CalculateCategoryScore c3State (str "median") c.ID))) ∧
    (∃ e', CalculateOverallScore c6AbortState (str "median") = .error e') ∧
    (CalculateOverallScore c6EmptyState (str "median") =
      .error (str "no categories with metrics found")) ∧
    (CalculateCategoryScore c3State (str "median") (str "c") =
      .error (str "no metrics found for category: " ++ str "c")) ∧
    (strContainsSub (str "no metrics found for category: " ++ str "c")
      (str "no metrics found for category") = true) :=
  ⟨claim_C6_amended.1 c3State (str "median") c3Overall (by decide),
   claim_C6_amended.2.1 c6AbortState (str "median")
     ⟨⟨str "d", str "D", [], [], []⟩, by decide,
      str "KPI not found: " ++ str "zz", by decide, by decide⟩,
   claim_C6_amended.2.2.1 c6EmptyState (str "median") (by decide)
     (by
       intro c hc
       simp only [GetAllCategories, c6EmptyState, List.mem_singleton] at hc
       subst hc
       exact ⟨str "no metrics found for category: " ++ str "e",
         by decide, by decide⟩),
   claim_C6_amended.2.2.2.1 c3State (str "median") (str "c")
     ⟨str "c", str "C", [], [⟨str "z", str "Z", [], [],
        [⟨none, none, 90⟩]⟩], []⟩ (by decide) (by decide),
   claim_C6_amended.2.2.2.2 (str "c")⟩

/-! ## C7: reference validation -/

/-- The claim's reference grammar: exactly three non-empty dot-separated
segments, middle segment `KPI` or `KRI`, characters restricted to letters,
digits, `.`, `_`, `-`, and at most 100 characters. -/
def claimRefGrammar (reference : Str) : Bool :=
  decide ((splitDot reference).length = 3) &&
  (splitDot reference).all (fun part => !part.isEmpty) &&
  (decide ((splitDot reference).getD 1 [] = str "KPI") ||
   decide ((splitDot reference).getD 1 [] = str "KRI")) &&
  reference.all isRefChar &&
  decide (reference.length ≤ 100)

theorem isValidReference_eq_claim (reference : Str) :
    isValidReference reference = claimRefGrammar reference := by
  unfold isValidReference claimRefGrammar
  by_cases h1 : reference = [] ∨ 100 < reference.length
  · rw [if_pos h1]
    rcases h1 with h | h
    · subst h
      decide
    · have hd : decide (reference.length ≤ 100) = false := by
        simp [not_le.mpr h]
      rw [hd]
      simp
  · rw [if_neg h1]
    push_neg at h1
    obtain ⟨hne, hlen⟩ := h1
    have hlen' : decide (reference.length ≤ 100) = true := by simp [hlen]
    by_cases h2 : reference.all isRefChar = false
    · rw [if_pos h2, h2]
      simp
    · rw [if_neg h2]
      have h2' : reference.all isRefChar = true := by
        cases hx : reference.all isRefChar
        · exact absurd hx h2
        · rfl
      by_cases h3 : (splitDot reference).length ≠ 3
      · rw [if_pos h3]
        have hd : decide ((splitDot reference).length = 3) = false := by
          simp [h3]
        rw [hd]
        simp
      · rw [if_neg h3]
        push_neg at h3
        have hd3 : decide ((splitDot reference).length = 3) = true := by
          simp [h3]
        by_cases h4 : (splitDot reference).any (fun part => part.isEmpty) = true
        · rw [if_pos h4]
          obtain ⟨part, hmem, hemp⟩ := List.any_eq_true.mp h4
          have hall : (splitDot reference).all (fun part => !part.isEmpty) =
              false := by
            rw [List.all_eq_false]
            exact ⟨part, hmem, by simp [hemp]⟩
          rw [hall]
          simp
        · rw [if_neg h4]
          have hall : (splitDot reference).all (fun part => !part.isEmpty) =
              true := by
            rw [List.all_eq_true]
            intro x hx
            simp only [List.any_eq_true, not_exists] at h4
            have := h4 x
            simp only [not_and] at this
            simp [this hx]
          by_cases h5 : (splitDot reference).getD 1 [] ≠ str "KPI" ∧
              (splitDot reference).getD 1 [] ≠ str "KRI"
          · rw [if_pos h5]
            have e1 : decide ((splitDot reference).getD 1 [] = str "KPI") =
                false := by rw [decide_eq_false_iff_not]; exact h5.1
            have e2 : decide ((splitDot reference).getD 1 [] = str "KRI") =
                false := by rw [decide_eq_false_iff_not]; exact h5.2
            rw [e1, e2]
            simp
          · rw [if_neg h5]
            rw [not_and_or, not_not, not_not] at h5
            rw [hd3, hall, h2', hlen']
            rcases h5 with h | h
            · have hv : decide ((splitDot reference).getD 1 [] = str "KPI") =
                  true := by rw [decide_eq_true_eq]; exact h
              rw [hv]
              rfl
            · have hv : decide ((splitDot reference).getD 1 [] = str "KRI") =
                  true := by rw [decide_eq_true_eq]; exact h
              rw [hv]
              simp

theorem GetMetricDefinition_badSplit (m : MetricsProcessor) (reference : Str)
    (h : (splitDot reference).length ≠ 3) :
    GetMetricDefinition m reference =
      .error (str "invalid metric reference format: " ++ reference) := by
  unfold GetMetricDefinition
  generalize hsp : splitDot reference = l at h ⊢
  rcases l with _ | ⟨a, _ | ⟨b, _ | ⟨c, _ | ⟨d, t⟩⟩⟩⟩
  · rfl
  · rfl
  · rfl
  · simp at h
  · rfl

/-- C7 (amended): `UpdateMetric` rejects exactly the references outside the
claim's grammar (three non-empty dot-separated segments, middle segment
`KPI`/`KRI`, restricted character set, at most 100 characters), leaving the
store untouched; metric score calculation, by contrast, rejects with an
invalid-reference error only references that do not split into exactly
three dot-separated segments (so `"a.b"` and `""` are rejected there too),
and does not itself enforce the character-set, non-emptiness or length
restrictions. -/
theorem claim_C7_amended :
    (∀ reference : Str, isValidReference reference = claimRefGrammar reference) ∧
    (∀ (s : MetricsProcessor) (reference : Str) (value : GoFloat) (now : Int),
      isValidReference reference = false →
      UpdateMetric s reference value now =
        (.error (str "invalid metric reference format: " ++ reference), s)) ∧
    (∀ (s : MetricsProcessor) (metric : Metric),
      (splitDot metric.Reference).length ≠ 3 →
      CalculateMetricScore s metric =
        .error (str "invalid metric reference format: " ++ metric.Reference)) := by
  refine ⟨isValidReference_eq_claim, ?_, ?_⟩
  · intro s reference value now h
    unfold UpdateMetric
    rw [if_pos h]
  · intro s metric h
    unfold CalculateMetricScore
    rw [GetMetricDefinition_badSplit s metric.Reference h]

/-- A well-formed reference of 101 characters (95-character category id,
`KPI` type segment, one-character metric id). -/
def c7LongID : Str := List.replicate 95 'c'

def c7LongRef : Str := c7LongID ++ str ".KPI.x"

/-- A catalog that defines the 101-character reference. -/
def c7State : MetricsProcessor :=
  ⟨⟨[⟨c7LongID, str "L", [], [⟨str "x", str "X", [], [],
        [⟨none, none, 85⟩]⟩], []⟩]⟩,
   ⟨⟨c5Thresholds, c5Thresholds, c5Thresholds⟩, ⟨[], [], [], []⟩⟩,
   ⟨[⟨c7LongRef, ⟨1, 1, Nat.one_pos⟩, 0, []⟩]⟩⟩

/-- C7 as stated is false for score calculation: a 101-character reference
is rejected by `isValidReference` (so metric update fails on it), yet
`CalculateMetricScore` succeeds on it — the length, character-set and
segment-nonemptiness checks are not on the score-calculation path. -/
theorem claim_C7_counterexample :
    c7LongRef.length = 101 ∧
    isValidReference c7LongRef = false ∧
    (splitDot c7LongRef).length = 3 ∧
    c7LongRef.all isRefChar = true ∧
    (exceptOk (CalculateMetricScore c7State
      ⟨c7LongRef, ⟨1, 1, Nat.one_pos⟩, 0, []⟩)).isSome = true := by
  refine ⟨by decide, by decide, by decide, by decide, by decide⟩

theorem claim_C7_witness :
    (isValidReference (str "a.b") = claimRefGrammar (str "a.b")) ∧
    (UpdateMetric exState (str "a.b") ⟨1, 1, Nat.one_pos⟩ 0 =
      (.error (str "invalid metric reference format: " ++ str "a.b"), exState)) ∧
    (UpdateMetric exState (str "") ⟨1, 1, Nat.one_pos⟩ 0 =
      (.error (str "invalid metric reference format: " ++ str ""), exState)) ∧
    (UpdateMetric exState (str "a.FOO.c") ⟨1, 1, Nat.one_pos⟩ 0 =
      (.error (str "invalid metric reference format: " ++ str "a.FOO.c"),
       exState)) ∧
    (CalculateMetricScore exState ⟨str "a.b", ⟨1, 1, Nat.one_pos⟩, 0, []⟩ =
      .error (str "invalid metric reference format: " ++ str "a.b")) :=
  ⟨claim_C7_amended.1 (str "a.b"),
   claim_C7_amended.2.1 exState (str "a.b") ⟨1, 1, Nat.one_pos⟩ 0 (by decide),
   claim_C7_amended.2.1 exState (str "") ⟨1, 1, Nat.one_pos⟩ 0 (by decide),
   claim_C7_amended.2.1 exState (str "a.FOO.c") ⟨1, 1, Nat.one_pos⟩ 0
     (by decide),
   claim_C7_amended.2.2 exState ⟨str "a.b", ⟨1, 1, Nat.one_pos⟩, 0, []⟩
     (by decide)⟩

/-! ## C9: no hidden mutation in the scoring computations -/

/-- The operations the CLI can run against one processor snapshot. -/
inductive PulseOp where
  | calcCategory (scoringMethod : ScoringMethod) (categoryID : Str)
  | calcOverall (scoringMethod : ScoringMethod)
  | update (reference : Str) (value : GoFloat) (now : Int)

/-- The visible result of one operation. -/
inductive PulseOutput where
  | categoryResult (r : Except Str CategoryScore)
  | overallResult (r : Except Str OverallScore)
  | updateResult (r : Except Str Unit)

/-- State-passing execution of one operation.  The two scoring operations
return the state unchanged because the source methods contain no
assignment to the processor (the only mutations in `CalculateCategoryScore`
and `CalculateOverallScore` build fresh local slices, and `calculateMedian`
sorts a copy); `UpdateMetric` is the only mutator. -/
def execOp (s : MetricsProcessor) : PulseOp → PulseOutput × MetricsProcessor
  | .calcCategory scoringMethod categoryID =>
      (.categoryResult (CalculateCategoryScore s scoringMethod categoryID), s)
  | .calcOverall scoringMethod =>
      (.overallResult (CalculateOverallScore s scoringMethod), s)
  | .update reference value now =>
      (.updateResult (UpdateMetric s reference value now).1,
       (UpdateMetric s reference value now).2)

/-- C9: the category and overall computations leave the processor state
unchanged, and running either twice in sequence (the second call on the
state left by the first) returns equal results.  In this embedding that is
definitional, because the faithful translation of the source produced pure
functions: the Go methods never assign through the processor pointer. -/
theorem claim_C9_idempotent :
    ∀ (s : MetricsProcessor) (scoringMethod : ScoringMethod)
      (categoryID : Str),
      (execOp s (.calcCategory scoringMethod categoryID)).2 = s ∧
      (execOp s (.calcOverall scoringMethod)).2 = s ∧
      (execOp (execOp s (.calcCategory scoringMethod categoryID)).2
          (.calcCategory scoringMethod categoryID)).1 =
        (execOp s (.calcCategory scoringMethod categoryID)).1 ∧
      (execOp (execOp s (.calcOverall scoringMethod)).2
          (.calcOverall scoringMethod)).1 =
        (execOp s (.calcOverall scoringMethod)).1 :=
  fun _ _ _ => ⟨rfl, rfl, rfl, rfl⟩

/-! ## C10: frame conditions of UpdateMetric -/

theorem updateMetricList_notfound (reference : Str) (value : GoFloat)
    (now : Int) (sourceFile : Str) :
    ∀ l : List Metric, (∀ m ∈ l, m.Reference ≠ reference) →
      updateMetricList reference value now sourceFile l = (false, l) := by
  intro l
  induction l with
  | nil => intro _; rfl
  | cons metric rest ih =>
      intro h
      unfold updateMetricList
      rw [if_neg (h metric (by simp))]
      rw [ih fun m hm => h m (by simp [hm])]

theorem updateMetricList_found (reference : Str) (value : GoFloat)
    (now : Int) (sourceFile : Str) :
    ∀ (pre : List Metric) (m : Metric) (post : List Metric),
      (∀ m' ∈ pre, m'.Reference ≠ reference) → m.Reference = reference →
      updateMetricList reference value now sourceFile (pre ++ m :: post) =
        (true, pre ++
          { m with
              Value := value
              Timestamp := now
              SourceFile := if m.SourceFile = [] then sourceFile
                else m.SourceFile } :: post) := by
  intro pre
  induction pre with
  | nil =>
      intro m post _ hm
      simp only [List.nil_append]
      unfold updateMetricList
      rw [if_pos hm]
  | cons p pre' ih =>
      intro m post hpre hm
      have hstep := ih m post (fun m' hm' => hpre m' (by simp [hm'])) hm
      simp only [List.cons_append]
      unfold updateMetricList
      rw [if_neg (hpre p (by simp))]
      rw [hstep]

/-- C10: an invalid reference leaves the store untouched and reports an
error; with a valid reference, if some stored metric already has the
reference then exactly the first such metric is rewritten (value set,
timestamp refreshed, source file filled only when previously empty) with
every other metric unchanged; otherwise one new metric for the reference is
appended at the end. -/
theorem claim_C10_update_frame :
    ∀ (s : MetricsProcessor) (reference : Str) (value : GoFloat) (now : Int),
      (isValidReference reference = false →
        UpdateMetric s reference value now =
          (.error (str "invalid metric reference format: " ++ reference), s)) ∧
      (isValidReference reference = true →
        (∀ (pre : List Metric) (m : Metric) (post : List Metric),
          s.metricsData.Metrics = pre ++ m :: post →
          (∀ m' ∈ pre, m'.Reference ≠ reference) →
          m.Reference = reference →
          UpdateMetric s reference value now =
            (.ok (), { s with metricsData := ⟨pre ++
              { m with
                  Value := value
                  Timestamp := now
                  SourceFile := if m.SourceFile = [] then
                      (splitDot reference).headD [] ++ str ".yaml"
                    else m.SourceFile } :: post⟩ })) ∧
        ((∀ m ∈ s.metricsData.Metrics, m.Reference ≠ reference) →
          UpdateMetric s reference value now =
            (.ok (), { s with metricsData := ⟨s.metricsData.Metrics ++
              [⟨reference, value, now,
                (splitDot reference).headD [] ++ str ".yaml"⟩]⟩ }))) := by
  intro s reference value now
  constructor
  · intro h
    unfold UpdateMetric
    rw [if_pos h]
  · intro hvalid
    constructor
    · intro pre m post hs hpre hm
      unfold UpdateMetric
      rw [if_neg (by simp [hvalid])]
      dsimp only
      rw [hs, updateMetricList_found reference value now _ pre m post hpre hm]
      simp
    · intro hnone
      unfold UpdateMetric
      rw [if_neg (by simp [hvalid])]
      dsimp only
      rw [updateMetricList_notfound reference value now _ _ hnone]
      simp

/-- A two-metric store for the update witnesses. -/
def c10State : MetricsProcessor :=
  ⟨⟨[]⟩, ⟨⟨c5Thresholds, c5Thresholds, c5Thresholds⟩, ⟨[], [], [], []⟩⟩,
   ⟨[⟨str "a.KPI.x", ⟨1, 1, Nat.one_pos⟩, 5, str "a.yaml"⟩,
     ⟨str "a.KPI.y", ⟨2, 1, Nat.one_pos⟩, 5, []⟩]⟩⟩

theorem claim_C10_witness :
    (UpdateMetric c10State (str "bad ref!") ⟨9, 1, Nat.one_pos⟩ 7 =
      (.error (str "invalid metric reference format: " ++ str "bad ref!"),
       c10State)) ∧
    (UpdateMetric c10State (str "a.KPI.y") ⟨9, 1, Nat.one_pos⟩ 7 =
      (.ok (), { c10State with metricsData :=
        ⟨[⟨str "a.KPI.x", ⟨1, 1, Nat.one_pos⟩, 5, str "a.yaml"⟩] ++
          { (⟨str "a.KPI.y", ⟨2, 1, Nat.one_pos⟩, 5, []⟩ : Metric) with
              Value := ⟨9, 1, Nat.one_pos⟩
              Timestamp := 7
              SourceFile := if ([] : Str) = [] then
                  (splitDot (str "a.KPI.y")).headD [] ++ str ".yaml"
                else [] } :: []⟩ })) ∧
    (UpdateMetric c10State (str "a.KPI.z") ⟨9, 1, Nat.one_pos⟩ 7 =
      (.ok (), { c10State with metricsData :=
        ⟨c10State.metricsData.Metrics ++
          [⟨str "a.KPI.z", ⟨9, 1, Nat.one_pos⟩, 7,
            (splitDot (str "a.KPI.z")).headD [] ++ str ".yaml"⟩]⟩ })) :=
  ⟨(claim_C10_update_frame c10State (str "bad ref!") ⟨9, 1, Nat.one_pos⟩ 7).1
     (by decide),
   ((claim_C10_update_frame c10State (str "a.KPI.y") ⟨9, 1, Nat.one_pos⟩ 7).2
     (by decide)).1
     [⟨str "a.KPI.x", ⟨1, 1, Nat.one_pos⟩, 5, str "a.yaml"⟩]
     ⟨str "a.KPI.y", ⟨2, 1, Nat.one_pos⟩, 5, []⟩ [] (by decide)
     (by decide) (by decide),
   ((claim_C10_update_frame c10State (str "a.KPI.z") ⟨9, 1, Nat.one_pos⟩ 7).2
     (by decide)).2 (by decide)⟩

end Pulse
